import Mathlib

/-!
# health-bot: verification of the meal_enricher / facts_sender core

Shallow embedding of `infra/envs/dev/lambda/meal_enricher.py` and
`infra/envs/dev/lambda/facts_sender.py`.

Modelling conventions:
* DynamoDB tables are association lists threaded through the handlers as an
  explicit `Store` value; a `put_item` is visible to every later read of the
  same invocation (sequential store semantics).
* ISO calendar-day strings (`"2024-02-20"`) are order-isomorphic to their day
  ordinals, so days are modelled as `Nat`.
* sha256-derived identifiers (`_meal_id`, episode ids) are modelled by their
  preimages (the hashed tuple), a collision-free abstraction.
* External collaborators and text parsing that does not touch the store
  (Nutritionix, regex time phrases, `difflib` fuzzy matching, `random.choice`,
  the wall clock) are oracle parameters collected in an `Ext` record; theorems
  quantify over them.
* Python `Decimal` values in this code path are integer-valued; they are
  modelled as `Int` (`_as_decimal` clamps, `_as_decimal_signed` does not).
* Reply strings are modelled by a structured `Reply` type; the exact prose is
  transport and not modelled.
-/

namespace HealthBot

/-- `USER_ID` environment default. -/
def USER_ID : String := "me"

/-- `DRY_RUN` environment toggle, deployment default `"0"` i.e. off. -/
def DRY_RUN : Bool := false

/-! ## Python string primitives

Structurally recursive models of the Python string operations the lambda uses,
over the character list of a `String` (the corresponding core-library versions
are byte-position based and are avoided for no deeper reason than proof
convenience; on the ASCII command texts involved they agree). -/

/-- Python `str.lower()`. -/
def pyLower (s : String) : String := String.mk (s.data.map Char.toLower)

/-- Python `str.strip()`. -/
def pyStrip (s : String) : String :=
  String.mk (((s.data.dropWhile Char.isWhitespace).reverse.dropWhile
    Char.isWhitespace).reverse)

/-- Python `str.split()`: split on whitespace runs, no empties. -/
def pySplitWs : List Char → List Char → List String
  | [], acc => if acc.isEmpty then [] else [String.mk acc.reverse]
  | c :: cs, acc =>
    if c.isWhitespace then
      if acc.isEmpty then pySplitWs cs [] else String.mk acc.reverse :: pySplitWs cs []
    else pySplitWs cs (c :: acc)

/-- Python `str.split()` on a `String`. -/
def pySplit (s : String) : List String := pySplitWs s.data []

/-- Split on every occurrence of one character (keeping empties), the
single-character case of Python `str.split(sep)`. -/
def pySplitCharAux (sep : Char) : List Char → List Char → List String
  | [], acc => [String.mk acc.reverse]
  | c :: cs, acc =>
    if c == sep then String.mk acc.reverse :: pySplitCharAux sep cs []
    else pySplitCharAux sep cs (c :: acc)

def pySplitChar (sep : Char) (s : String) : List String := pySplitCharAux sep s.data []

/-- Split on every character satisfying `p` (keeping empties). -/
def pySplitPredAux (p : Char → Bool) : List Char → List Char → List String
  | [], acc => [String.mk acc.reverse]
  | c :: cs, acc =>
    if p c then String.mk acc.reverse :: pySplitPredAux p cs []
    else pySplitPredAux p cs (c :: acc)

def pySplitPred (p : Char → Bool) (s : String) : List String := pySplitPredAux p s.data []

/-- Python `sep.join(parts)`. -/
def pyJoin (sep : String) : List String → String
  | [] => ""
  | [x] => x
  | x :: xs => x ++ sep ++ pyJoin sep xs

/-- Python `s.split(sep, 1)[1] if sep in s else ""` for a one-character `sep`. -/
def afterFirstCharAux (sep : Char) : List Char → Option (List Char)
  | [] => none
  | c :: cs => if c == sep then some cs else afterFirstCharAux sep cs

def afterFirstChar (sep : Char) (s : String) : String :=
  ((afterFirstCharAux sep s.data).map String.mk).getD ""

/-- Python `sep in s` for a one-character `sep`. -/
def pyContains (s : String) (sep : Char) : Bool := s.data.any (fun c => c == sep)

/-- Python `s.startswith(pre)`. -/
def pyStartsWith (s pre : String) : Bool := pre.data.isPrefixOf s.data

/-- Python `s[n:]` (character based). -/
def pyDrop (n : Nat) (s : String) : String := String.mk (s.data.drop n)

/-- Decimal digit parse (`int(s)` for a non-negative literal). -/
def pyToNat? (s : String) : Option Nat :=
  if s.data ≠ [] ∧ s.data.all Char.isDigit then
    some (s.data.foldl (fun n c => n * 10 + (c.toNat - 48)) 0)
  else none

/-- Python `int(s)` for an optionally `-`-signed decimal literal (other
shapes are the failure branch). -/
def pyToInt? (s : String) : Option Int :=
  match s.data with
  | '-' :: rest => (pyToNat? (String.mk rest)).map (fun n => -(n : Int))
  | _ => (pyToNat? s).map (fun n => (n : Int))

/-- Macro totals as used throughout (`calories/protein/carbs/fat`). -/
structure Macros where
  calories : Int
  protein  : Int
  carbs    : Int
  fat      : Int
deriving Repr, DecidableEq

/-- `_as_decimal`: `None` or malformed input becomes 0, negatives are clamped to 0. -/
def asDecimal (n : Option Int) : Int :=
  match n with
  | none => 0
  | some d => if 0 ≤ d then d else 0

/-- `_as_decimal_signed`: malformed input becomes 0, the sign is kept. -/
def asDecimalSigned (n : Option Int) : Int := n.getD 0

/-- A `hb_daily_totals_dev` row (key `(total#USER_ID, day)`). -/
structure TotalsRow where
  calories : Int
  protein  : Int
  carbs    : Int
  fat      : Int
  lastUpdateMs : Nat
deriving Repr, DecidableEq

/-- The all-zero default returned by `_get_totals_for_day` when no row exists. -/
def TotalsRow.zero : TotalsRow := ⟨0, 0, 0, 0, 0⟩

/-- The totals table: day-keyed rows. -/
abbrev TotalsStore := List (Nat × TotalsRow)

/-- Key-based lookup in the totals table. -/
def getTotalsRow? (ts : TotalsStore) (dt : Nat) : Option TotalsRow :=
  (ts.find? (fun r => r.1 == dt)).map Prod.snd

/-- `_get_totals_for_day`: a missing row reads as zeros. -/
def getTotalsForDay (ts : TotalsStore) (dt : Nat) : TotalsRow :=
  (getTotalsRow? ts dt).getD TotalsRow.zero

/-- `update_item` key upsert: replace the row for `dt`, or append one. -/
def setTotalsRow (ts : TotalsStore) (dt : Nat) (row : TotalsRow) : TotalsStore :=
  if ts.any (fun r => r.1 == dt) then
    ts.map (fun r => if r.1 == dt then (dt, row) else r)
  else ts ++ [(dt, row)]

/-- `_update_totals`: `ADD` each macro delta through `_as_decimal` (so clamped to
`≥ 0`) and `SET last_update_ms`; returns the fresh row it re-reads. -/
def updateTotals (nowMs : Nat) (ts : TotalsStore) (dt : Nat) (deltas : Macros) :
    TotalsStore × TotalsRow :=
  let old := getTotalsForDay ts dt
  let row : TotalsRow :=
    { calories := old.calories + asDecimal (some deltas.calories)
      protein  := old.protein  + asDecimal (some deltas.protein)
      carbs    := old.carbs    + asDecimal (some deltas.carbs)
      fat      := old.fat      + asDecimal (some deltas.fat)
      lastUpdateMs := nowMs }
  (setTotalsRow ts dt row, row)

/-- `_decrement_totals`: `ADD` the *negated* macros through `_as_decimal_signed`
(the one signed path, used only by undo). -/
def decrementTotals (nowMs : Nat) (ts : TotalsStore) (dt : Nat) (m : Macros) :
    TotalsStore × TotalsRow :=
  let old := getTotalsForDay ts dt
  let row : TotalsRow :=
    { calories := old.calories + asDecimalSigned (some (-m.calories))
      protein  := old.protein  + asDecimalSigned (some (-m.protein))
      carbs    := old.carbs    + asDecimalSigned (some (-m.carbs))
      fat      := old.fat      + asDecimalSigned (some (-m.fat))
      lastUpdateMs := nowMs }
  (setTotalsRow ts dt row, row)

/-- Python integer `round(n / d)` of the exact fraction `n / d` (with `d > 0`):
half-to-even rounding, expressed over the numerator and denominator. -/
def pyRoundFrac (n d : Int) : Int :=
  let f := Int.fdiv n d
  let twice := 2 * (n - f * d)
  if twice < d then f else if d < twice then f + 1 else if f % 2 = 0 then f else f + 1

/-- The record `_sum_range` returns. Python computes
`avg_cal = round(cal / days, 1)`; the model carries the exact value scaled by
ten, `avgCalX10 = round(cal * 10 / days)`, to stay in integers. -/
structure RangeSummary where
  cal : Int
  pro : Int
  carb : Int
  fat : Int
  days : Nat
  avgCalX10 : Int
  avgProX10 : Int
deriving Repr, DecidableEq

/-- `_sum_range`: sum the totals rows whose day lies in `[a, b]`; the day count
`(end_d - start_d).days + 1` is the inclusive span, empty days included. -/
def sumRange (ts : TotalsStore) (a b : Nat) : RangeSummary :=
  let rows := ts.filter (fun r => decide (a ≤ r.1) && decide (r.1 ≤ b))
  let cal := (rows.map (fun r => r.2.calories)).sum
  let pro := (rows.map (fun r => r.2.protein)).sum
  let carb := (rows.map (fun r => r.2.carbs)).sum
  let fat := (rows.map (fun r => r.2.fat)).sum
  let days := b - a + 1
  { cal := cal, pro := pro, carb := carb, fat := fat, days := days
    avgCalX10 := pyRoundFrac (cal * 10) (days : Int)
    avgProX10 := pyRoundFrac (pro * 10) (days : Int) }

/-! ## Store rows -/

/-- Preimage of the truncated sha256 used by `_meal_id`, over `user|dt|text.strip()|ts_ms`
(collision-free model of the derived hash). -/
structure MealKey where
  user : String
  dt : Nat
  text : String
  tsMs : Nat
deriving Repr, DecidableEq

/-- `_meal_id`. -/
def mealId (user : String) (dt : Nat) (text : String) (tsMs : Nat) : MealKey :=
  ⟨user, dt, pyStrip text, tsMs⟩

/-- A `hb_meals_dev` row; the table key `(pk, sk)` is `(user, dt#meal_id)`,
carried here by `user` and `mealId`. -/
structure MealRow where
  user : String
  dt : Nat
  mealId : MealKey
  rawText : String
  kcal : Int
  proteinG : Int
  carbsG : Int
  fatG : Int
  createdMs : Nat
deriving Repr, DecidableEq

/-- A `hb_events_dev` row; `sk` is the stringified millisecond timestamp. -/
structure EventRow where
  pk : String
  sk : Nat
  type : String
  dt : Nat
  text : String
deriving Repr, DecidableEq

/-- A `hb_meds_dev` row; sort key `"{dt}#{ts_ms}"` carried by `dt` and `tsMs`. -/
structure MedRow where
  user : String
  dt : Nat
  tsMs : Nat
  text : String
  category : String
  matchedName : String
  dose : String
deriving Repr, DecidableEq

/-- A `hb_migraines_dev` row; the sha256-derived episode id (over
`USER_ID|when_ms`) is modelled by its preimage `key = when_ms`. `is_open` is
stored as 0/1 and modelled as `Bool`; `meds` is the soft-link list appended by
`_log_med`. -/
structure Episode where
  user : String
  key : Nat
  dt : Nat
  startMs : Nat
  endMs : Nat
  category : String
  notes : String
  isOpen : Bool
  meds : List MedRow
deriving Repr, DecidableEq

/-- A `hb_fasting_dev` episode row (`fast#<id>`), id preimage `key = when_ms`. -/
structure FastRow where
  user : String
  key : Nat
  dt : Nat
  startMs : Nat
  endMs : Nat
  isOpen : Bool
deriving Repr, DecidableEq

/-- A `hb_food_overrides_dev` row, keyed by `(USER_ID, normalized alias)`. -/
structure OverrideRow where
  user : String
  aliasKey : String
  kcal : Int
  protein : Int
  carbs : Int
  fat : Int
  note : String
  updatedMs : Nat
deriving Repr, DecidableEq

/-- The `config#facts` singleton (shared by meal_enricher and facts_sender).
`toNumber = ""` models an unset/falsy number; `lastSentDt = none` models
"never sent". Reads of a missing `daily_hour` default at read time in the
source; the record keeps the same observable behaviour with the default
filled in at creation. -/
structure FactsCfg where
  dailyEnabled : Bool
  dailyHour : Nat
  toNumber : String
  lastSentDt : Option Nat
deriving Repr, DecidableEq

/-- `FACTS_DEFAULT_HOUR` env default. -/
def FACTS_DEFAULT_HOUR : Nat := 9

/-- The whole persistent store of the meal_enricher lambda. -/
structure Store where
  meals : List MealRow
  totals : TotalsStore
  events : List EventRow
  migs : List Episode
  meds : List MedRow
  fasts : List FastRow
  fastGoal : Option Int
  overrides : List OverrideRow
  factsCfg : Option FactsCfg
  facts : List String
deriving Repr, DecidableEq

def emptyStore : Store := ⟨[], [], [], [], [], [], none, [], none, []⟩

/-! ## Generic store helpers -/

/-- DynamoDB unconditional `put_item`: replace the row(s) matching the key
predicate, or append the new row. -/
def upsertBy {α : Type} (key : α → Bool) (row : α) (l : List α) : List α :=
  if l.any key then l.map (fun r => if key r then row else r) else l ++ [row]

/-- Insertion keeping a list sorted by `key` descending — the model of a
DynamoDB partition read with `ScanIndexForward=False`. -/
def insertDescBy {α : Type} (key : α → Nat) (row : α) : List α → List α
  | [] => [row]
  | e :: rest => if key e ≤ key row then row :: e :: rest else e :: insertDescBy key row rest

def afterFirstSpace (s : String) : String := afterFirstChar ' ' s

def afterFirstColon (s : String) : String := afterFirstChar ':' s

/-- `|a - b|` on `Nat` timestamps (Python `abs(when_ms - ts)`). -/
def natAbsDiff (a b : Nat) : Nat := if a ≤ b then b - a else a - b

/-! ## External oracles

Everything the lambda consults that is not the store: the clock, the EST
calendar, the Nutritionix collaborator, regex/difflib text parsing, and
`random.choice`. Theorems quantify over an arbitrary `Ext`. -/

structure Ext where
  /-- `_now_ms()` -/
  nowMs : Nat
  /-- `_today_est_from_ts`: ms timestamp → EST day ordinal -/
  dayOf : Nat → Nat
  /-- `_parse_when_to_ms` -/
  parseWhen : List String → Nat
  /-- `_nutritionix`: `none` models `NxError` (request error, timeout, HTTP
  failure, or zero matched foods) -/
  nx : String → Option Macros
  /-- the ordered `(alias, qty)` candidates `_match_override_in_text` derives
  from its regexes, before the store-membership check -/
  overrideCandidates : String → List (String × Nat)
  /-- `_classify_med` (substring + difflib fuzzy match): `(raw category, matched name)` -/
  classifyMed : String → String × String
  /-- the `(\d+\.?\d*)\s*(mg|mcg|g|ml)` dose extraction in `_log_med` -/
  doseOf : String → String
  /-- the regex `elif` branch of the when-token split of `_handle_med`:
  `(when_tokens, text_tokens)` when a clock-time phrase is found -/
  medTimeExtract : String → Option (List String × List String)
  /-- `_nutritionix_lookup_upc` -/
  upcLookup : String → Option Unit
  /-- `_fact_pick_random` (`random.choice` over the stored facts) -/
  pickFact : List String → Option String
  /-- `_month_bounds_est()`: first day of the current month -/
  monthStart : Nat
  /-- `_month_bounds_est()`: today -/
  today : Nat

/-- A fixed trivial oracle bundle used for concrete evaluations. -/
def trivExt : Ext :=
  { nowMs := 0, dayOf := fun _ => 0, parseWhen := fun _ => 0, nx := fun _ => none
    overrideCandidates := fun _ => [], classifyMed := fun t => ("unknown", t)
    doseOf := fun _ => "", medTimeExtract := fun _ => none, upcLookup := fun _ => none
    pickFact := fun _ => none, monthStart := 0, today := 0 }

/-! ## Replies -/

/-- The distinct medication-safety warnings `_log_med` can append. -/
inductive MedWarning
  /-- "Triptans should NOT be used within 24h of any triptan or DHE." -/
  | triptanInteraction
  /-- "DHE should NOT be used within 24h of any triptan." -/
  | dheInteraction
  /-- "Over monthly … dose limit: would_be/limit." -/
  | overLimit (wouldBe limit : Nat)
  /-- "Approaching monthly … dose limit: would_be/limit." -/
  | approaching (wouldBe limit : Nat)
deriving Repr, DecidableEq

/-- The structured content of the reply built by `_log_med`. -/
structure MedReply where
  catKey : String
  dose : String
  linked : Bool
  used? : Option Nat
  limit? : Option Nat
  warnings : List MedWarning
deriving Repr, DecidableEq

/-- One outbound `_send_sms` call, by message kind (prose abstracted). -/
inductive Reply
  /-- "Sorry — <NxError>. Try rephrasing …" -/
  | mealFail
  /-- "Meal saved …" with the applied macros and the re-read totals row -/
  | mealSaved (override : Bool) (m : Macros) (t : TotalsRow)
  /-- a `[TEST] Would …` simulation preview -/
  | test (what : String)
  /-- the reply of `_log_med` -/
  | med (r : MedReply)
  /-- a `_sum_range`-based summary (`/week`, `/month`) -/
  | range (r : RangeSummary)
  /-- any other informational/usage reply -/
  | info (what : String)
deriving Repr, DecidableEq

/-! ## Override Registry (`_norm_alias`, `_get_override`, `_put_override`, …) -/

/-- `_norm_alias`: trim, lowercase, collapse whitespace runs. -/
def normAlias (s : String) : String :=
  pyJoin " " (pySplit (pyLower (pyStrip s)))

/-- `_get_override`. -/
def getOverride (s : Store) (argAlias : String) : Option OverrideRow :=
  s.overrides.find? (fun r => r.user == USER_ID && r.aliasKey == normAlias argAlias)

/-- `_put_override`: upsert by `(USER_ID, normalized alias)`; macros go through
`_as_decimal`. -/
def putOverride (nowMs : Nat) (s : Store) (argAlias : String) (m : Macros) (note : String) :
    Store :=
  let row : OverrideRow :=
    { user := USER_ID, aliasKey := normAlias argAlias
      kcal := asDecimal (some m.calories), protein := asDecimal (some m.protein)
      carbs := asDecimal (some m.carbs), fat := asDecimal (some m.fat)
      note := note, updatedMs := nowMs }
  { s with overrides :=
      upsertBy (fun r => r.user == USER_ID && r.aliasKey == row.aliasKey) row s.overrides }

/-- `_del_override`. -/
def delOverride (s : Store) (argAlias : String) : Store :=
  { s with overrides :=
      s.overrides.filter (fun r => !(r.user == USER_ID && r.aliasKey == normAlias argAlias)) }

/-- `_match_override_in_text`: try the regex-derived `(alias, qty)` candidates in
order; the first whose alias is a stored override wins. -/
def matchOverrideInText (cand : String → List (String × Nat)) (s : Store) (text : String) :
    Option (String × Nat) :=
  (cand text).find? (fun c => (getOverride s c.1).isSome)

/-- `_macros_from_override`: stored alias macros times `max 1 qty`. -/
def macrosFromOverride (s : Store) (argAlias : String) (qty : Nat) : Option Macros :=
  match getOverride s argAlias with
  | none => none
  | some it =>
    let q : Int := max 1 (qty : Int)
    some ⟨it.kcal * q, it.protein * q, it.carbs * q, it.fat * q⟩

/-! ## Meals core -/

/-- `put_item` on `hb_events_dev` (unconditional: same `(pk, sk)` overwrites). -/
def putEvent (s : Store) (e : EventRow) : Store :=
  { s with events := upsertBy (fun r => r.pk == e.pk && r.sk == e.sk) e s.events }

/-- `_write_enriched_event`. -/
def writeEnrichedEvent (s : Store) (mealPk : String) (tsMs : Nat) (dt : Nat) (text : String) :
    Store :=
  putEvent s ⟨mealPk, tsMs, "meal.enriched", dt, text⟩

/-- `_put_meal_row_idempotent`: conditional insert
(`attribute_not_exists(pk) AND attribute_not_exists(sk)`); a duplicate key is
caught, logged, and reported as `created = false`. -/
def putMealRowIdempotent (nowMs : Nat) (s : Store) (userId : String) (dt tsMs : Nat)
    (mealText : String) (m : Macros) : Bool × MealKey × Store :=
  let mid := mealId userId dt mealText tsMs
  let row : MealRow :=
    { user := userId, dt := dt, mealId := mid, rawText := mealText
      kcal := asDecimal (some m.calories), proteinG := asDecimal (some m.protein)
      carbsG := asDecimal (some m.carbs), fatG := asDecimal (some m.fat)
      createdMs := nowMs }
  if s.meals.any (fun r => r.user == userId && r.mealId == mid) then
    (false, mid, s)
  else
    (true, mid, { s with meals := s.meals ++ [row] })

/-- `_handle_meal`. -/
def handleMeal (E : Ext) (sender : String) (dt tsMs : Nat) (mealPk text : String)
    (simulate : Bool) (s : Store) : Store × List Reply :=
  match matchOverrideInText E.overrideCandidates s text with
  | some (argAlias, qty) =>
    -- override branch; `_macros_from_override` falls back to Nutritionix if the
    -- alias is somehow missing
    let macros? :=
      match macrosFromOverride s argAlias qty with
      | some m => some m
      | none => E.nx text
    match macros? with
    | none => (s, [.mealFail])
    | some macros =>
      if simulate || DRY_RUN then (s, [.test "meal (override)"])
      else
        let s1 := writeEnrichedEvent s mealPk tsMs dt ("[override] " ++ text)
        let r2 := putMealRowIdempotent E.nowMs s1 USER_ID dt tsMs text macros
        let r3 := updateTotals E.nowMs r2.2.2.totals dt macros
        ({ r2.2.2 with totals := r3.1 }, [.mealSaved true macros r3.2])
  | none =>
    match E.nx text with
    | none => (s, [.mealFail])
    | some macros =>
      if simulate || DRY_RUN then (s, [.test "meal"])
      else
        let s1 := writeEnrichedEvent s mealPk tsMs dt text
        let r2 := putMealRowIdempotent E.nowMs s1 USER_ID dt tsMs text macros
        let r3 := updateTotals E.nowMs r2.2.2.totals dt macros
        ({ r2.2.2 with totals := r3.1 }, [.mealSaved false macros r3.2])

/-! ## Migraine episode tracking -/

def MIG_CATS : List String := ["non-aura", "aura", "tension", "other"]

/-- `_open_episode`: scan the newest 25 migraine rows (`ScanIndexForward=False`,
`Limit=25`; the list is kept key-descending) for the first `is_open` one. -/
def openEpisode (s : Store) : Option Episode :=
  (s.migs.take 25).find? (fun e => e.isOpen)

/-- The `attribute_not_exists` condition of the migraine conditional put:
does a row with the derived key already exist? -/
def migKeyExists (s : Store) (whenMs : Nat) : Bool :=
  s.migs.any (fun e => e.user == USER_ID && e.key == whenMs)

/-- `_start_migraine`: conditional put keyed by the derived episode id; a
duplicate key raises `ConditionalCheckFailedException`, which nothing in the
source catches — modelled as `Except.error`. -/
def startMigraine (dayOf : Nat → Nat) (whenMs : Nat) (cat note : String) (s : Store) :
    Except Unit (Store × List Reply) :=
  if migKeyExists s whenMs then .error ()
  else
    let ep : Episode :=
      { user := USER_ID, key := whenMs, dt := dayOf whenMs, startMs := whenMs, endMs := 0
        category := cat, notes := note, isOpen := true, meds := [] }
    .ok ({ s with migs := insertDescBy (fun e => e.key) ep s.migs },
         [.info "migraine started"])

/-- The note join in `_end_migraine`. -/
def joinNotes (existing incoming : String) : String :=
  let e := pyStrip existing
  let i := pyStrip incoming
  pyStrip (e ++ (if e ≠ "" ∧ i ≠ "" then " " else "") ++ i)

/-- `_end_migraine`: close the open episode found by `_open_episode` (sets
`end_ms`, `is_open = 0`, and the joined notes when non-empty). -/
def endMigraine (whenMs : Nat) (note : String) (s : Store) : Store × List Reply :=
  match openEpisode s with
  | none => (s, [.info "No open migraine to end."])
  | some ep =>
    let combined := joinNotes ep.notes note
    ({ s with migs := s.migs.map (fun e =>
        if e.user == ep.user && e.key == ep.key then
          { e with endMs := whenMs, isOpen := false
                   notes := if combined ≠ "" then combined else e.notes }
        else e) },
     [.info "migraine ended"])

/-! ## Fast (IF) episode tracking -/

/-- `_open_fast` (same scan as `_open_episode`, on the fasting table). -/
def openFast (s : Store) : Option FastRow :=
  (s.fasts.take 25).find? (fun e => e.isOpen)

/-- The `attribute_not_exists` condition of the fasting conditional put. -/
def fastKeyExists (s : Store) (whenMs : Nat) : Bool :=
  s.fasts.any (fun e => e.user == USER_ID && e.key == whenMs)

/-- `_start_fast`: conditional put (duplicate key raises, uncaught), then a
`fast.start` event. -/
def startFast (nowMs : Nat) (dayOf : Nat → Nat) (whenMs : Nat) (s : Store) :
    Except Unit (Store × List Reply) :=
  if fastKeyExists s whenMs then .error ()
  else
    let row : FastRow :=
      { user := USER_ID, key := whenMs, dt := dayOf whenMs, startMs := whenMs, endMs := 0
        isOpen := true }
    let s1 := { s with fasts := insertDescBy (fun e => e.key) row s.fasts }
    .ok (putEvent s1 ⟨USER_ID, nowMs, "fast.start", dayOf whenMs, ""⟩,
         [.info "fast started"])

/-- `_end_fast`. -/
def endFast (nowMs : Nat) (dayOf : Nat → Nat) (whenMs : Nat) (s : Store) :
    Store × List Reply :=
  match openFast s with
  | none => (s, [.info "No open fast to end."])
  | some ep =>
    let s1 := { s with fasts := s.fasts.map (fun e =>
        if e.user == ep.user && e.key == ep.key then
          { e with endMs := whenMs, isOpen := false }
        else e) }
    (putEvent s1 ⟨USER_ID, nowMs, "fast.end", dayOf whenMs, ""⟩, [.info "fast ended"])

/-! ## Medication Safety Engine -/

/-- env-default monthly dose ceilings. -/
def TRIPTAN_LIMIT_DPM : Nat := 8
def DHE_LIMIT_DPM : Nat := 6
def COMBO_LIMIT_DPM : Nat := 8
def PAIN_LIMIT_DPM : Nat := 12

/-- `NEAR_THRESH_PCT` env default `0.75`, carried scaled by 100. -/
def NEAR_THRESH_PCT_X100 : Int := 75

/-- `_med_category_key`. -/
def medCategoryKey (cat : String) : String :=
  let c := pyLower cat
  if c = "triptan" then "triptan"
  else if c = "dhe" ∨ c = "d.h.e." ∨ c = "d.h.e" then "dhe"
  else if c = "excedrin" then "excedrin"
  else if c = "normal pain med" ∨ c = "nsaid" ∨ c = "ibuprofen" ∨ c = "naproxen"
        ∨ c = "acetaminophen" ∨ c = "tylenol" ∨ c = "advil" ∨ c = "aleve" then
    "normal pain med"
  else if c = "" then "unknown" else c

/-- `_med_limits_for`. -/
def medLimitsFor (catKey : String) : Option Nat :=
  if catKey = "triptan" then some TRIPTAN_LIMIT_DPM
  else if catKey = "dhe" then some DHE_LIMIT_DPM
  else if catKey = "excedrin" then some COMBO_LIMIT_DPM
  else if catKey = "normal pain med" then some PAIN_LIMIT_DPM
  else none

/-- `_count_med_doses_this_month`: loop day = month start … today over the
`gsi_dt` index; i.e. count stored doses with `dt ∈ [monthStart, today]` whose
category maps to `catKey`. -/
def countMedDosesThisMonth (monthStart today : Nat) (catKey : String) (s : Store) : Nat :=
  (s.meds.filter (fun it =>
      decide (monthStart ≤ it.dt) && decide (it.dt ≤ today)
        && medCategoryKey it.category == catKey)).length

def MS_24H : Nat := 24 * 60 * 60 * 1000

/-- `_log_med`: write the dose row, link it to an open migraine, then run the
24-hour interaction scan and the monthly-limit check (both of which read the
store the dose row was just written to). -/
def logMed (E : Ext) (whenMs : Nat) (textAfter : String) (s : Store) :
    Store × MedReply :=
  let dose := E.doseOf textAfter
  let rc := E.classifyMed textAfter
  let catKey := medCategoryKey rc.1
  let dt := E.dayOf whenMs
  let item : MedRow :=
    { user := USER_ID, dt := dt, tsMs := whenMs, text := pyStrip textAfter
      category := catKey, matchedName := rc.2, dose := dose }
  -- unconditional `put_item` (sort key `"{dt}#{when_ms}"`)
  let s1 :=
    { s with meds :=
        upsertBy (fun r => r.user == USER_ID && r.dt == dt && r.tsMs == whenMs) item s.meds }
  -- link to an open migraine, if any
  let linkStep : Store × Bool :=
    match openEpisode s1 with
    | some ep =>
      ({ s1 with migs := s1.migs.map (fun e : Episode =>
          if e.user == ep.user && e.key == ep.key then { e with meds := e.meds ++ [item] }
          else e) }, true)
    | none => (s1, false)
  let s2 := linkStep.1
  -- 24h interaction scan over the two calendar days the window touches
  let datesToCheck := [E.dayOf whenMs, E.dayOf (whenMs - MS_24H)]
  let recent := s2.meds.filter (fun it => datesToCheck.contains it.dt)
  let recentCats :=
    (recent.filter (fun it => decide (natAbsDiff whenMs it.tsMs < MS_24H))).map
      (fun it => (medCategoryKey it.category, it.tsMs))
  let w1 : List MedWarning :=
    if catKey = "triptan"
        ∧ recentCats.any (fun p =>
            (p.1 == "dhe" || p.1 == "triptan") && decide (natAbsDiff whenMs p.2 < MS_24H)) then
      [.triptanInteraction]
    else []
  let w2 : List MedWarning :=
    if catKey = "dhe"
        ∧ recentCats.any (fun p =>
            p.1 == "triptan" && decide (natAbsDiff whenMs p.2 < MS_24H)) then
      [.dheInteraction]
    else []
  -- monthly limit check (the count is taken from the store *after* the put)
  let limitStep : List MedWarning × Option Nat :=
    match medLimitsFor catKey with
    | none => ([], none)
    | some limit =>
      let used := countMedDosesThisMonth E.monthStart E.today catKey s2
      let wouldBe := used + 1
      -- `pct = round(would_be / limit, 2)` carried scaled by 100
      let pctX100 : Int := if limit = 0 then 0 else pyRoundFrac (wouldBe * 100) (limit : Int)
      (if limit < wouldBe then [.overLimit wouldBe limit]
       else if NEAR_THRESH_PCT_X100 ≤ pctX100 then [.approaching wouldBe limit]
       else [],
       some used)
  (s2, { catKey := catKey, dose := dose, linked := linkStep.2, used? := limitStep.2
         limit? := medLimitsFor catKey, warnings := w1 ++ w2 ++ limitStep.1 })

/-! ## Undo / reset -/

/-- Python `max(items, key=created_ms)`: first maximal element. -/
def latestMeal (x : MealRow) (xs : List MealRow) : MealRow :=
  xs.foldl (fun a b => if a.createdMs < b.createdMs then b else a) x

/-- `_handle_undo`. -/
def handleUndo (nowMs : Nat) (dt : Nat) (simulate : Bool) (s : Store) :
    Store × List Reply :=
  match s.meals.filter (fun r => r.user == USER_ID && r.dt == dt) with
  | [] => (s, [.info "No meals found for today."])
  | x :: xs =>
    let latest := latestMeal x xs
    let macros : Macros := ⟨latest.kcal, latest.proteinG, latest.carbsG, latest.fatG⟩
    if simulate || DRY_RUN then (s, [.test "undo"])
    else
      let r1 := decrementTotals nowMs s.totals dt macros
      let s1 := { s with totals := r1.1 }
      let s2 := { s1 with meals := s1.meals.filter (fun r =>
          !(r.user == latest.user && r.mealId == latest.mealId)) }
      (putEvent s2 ⟨USER_ID, nowMs, "meal.undo", dt, ""⟩, [.info "undid last meal"])

/-- `_handle_reset_today`: absolute `SET` of the day row to zeros, plus an
audit event. -/
def handleResetToday (nowMs : Nat) (dt : Nat) (simulate : Bool) (s : Store) :
    Store × List Reply :=
  if simulate || DRY_RUN then (s, [.test "reset"])
  else
    let s1 := { s with totals := setTotalsRow s.totals dt ⟨0, 0, 0, 0, nowMs⟩ }
    (putEvent s1 ⟨USER_ID, nowMs, "totals.reset", dt, ""⟩, [.info "totals reset"])

/-! ## Food override / barcode / summary handlers -/

/-- `_parse_macros_arg`: `k=… p=… c=… f=…` tokens (split on whitespace/commas).
`int(float(v))` is modelled by `pyToInt?` (integer-valued inputs exact;
a non-parsing value is skipped, matching the `except: continue` of the source). -/
def parseMacrosArg (sArg : String) : Option Macros :=
  if sArg = "" then none
  else
    let toks := (pySplitPred (fun c => c == ' ' || c == ',') (pyStrip sArg)).filter
      (fun t => t ≠ "")
    some (toks.foldl (fun (m : Macros) part =>
      match pySplitChar '=' part with
      | k :: v₀ :: vrest =>
        let v := pyJoin "=" (v₀ :: vrest)
        match pyToInt? v with
        | none => m
        | some n =>
          let kl := pyLower k
          if kl = "k" ∨ kl = "kcal" ∨ kl = "cal" ∨ kl = "calories" then
            { m with calories := n }
          else if kl = "p" ∨ kl = "protein" ∨ kl = "prot" then { m with protein := n }
          else if kl = "c" ∨ kl = "carbs" ∨ kl = "carb" then { m with carbs := n }
          else if kl = "f" ∨ kl = "fat" then { m with fat := n }
          else m
      | _ => m) ⟨0, 0, 0, 0⟩)

/-- `_handle_food`: `set`/`del`/`list`. Note: it takes **no** simulate flag in
the source. (With an all-blank `args`, `parts[0]` raises in the source; the
model returns with the store unchanged, which is what the crash leaves.) -/
def handleFood (nowMs : Nat) (args : String) (s : Store) : Store × List Reply :=
  if args = "" then (s, [.info "food usage"])
  else
    match pySplit args with
    | [] => (s, [])
    | sub :: rest =>
      let subL := pyLower sub
      if subL = "list" then (s, [.info "food list"])
      else if subL = "del" ∧ rest ≠ [] then
        (delOverride s (normAlias (pyJoin " " rest)), [.info "deleted custom food"])
      else if subL = "set" ∧ (sub :: rest).length ≥ 3 then
        match (rest.drop 1).findIdx? (fun t => pyContains t '=') with
        | none => (s, [.info "food usage"])
        | some i =>
          let aliasTokens := rest.take (i + 1)
          let argAlias := normAlias (pyJoin " " aliasTokens)
          let macroStr := pyJoin " " ((rest.drop 1).drop i)
          match parseMacrosArg macroStr with
          | none => (s, [.info "food usage"])
          | some m =>
            if m.calories + m.protein + m.carbs + m.fat = 0 then (s, [.info "food usage"])
            else (putOverride nowMs s argAlias m "", [.info "saved custom food"])
      else (s, [.info "food usage"])

/-- `_handle_barcode`: lookups only, no store access. -/
def handleBarcode (E : Ext) (args : String) (s : Store) : Store × List Reply :=
  let upc := String.mk (args.toList.filter Char.isDigit)
  if ¬ (upc.length = 8 ∨ upc.length = 12 ∨ upc.length = 13 ∨ upc.length = 14) then
    (s, [.info "barcode usage"])
  else
    match E.upcLookup upc with
    | none => (s, [.info "barcode not found"])
    | some _ => (s, [.info "barcode match"])

/-- `_handle_summary`. -/
def handleSummary (dt : Nat) (s : Store) : Store × List Reply :=
  (s, [.info "summary", .range (sumRange s.totals dt dt)])

/-- `_handle_week`: `_sum_range(today-6, today)`. -/
def handleWeek (E : Ext) (s : Store) : Store × List Reply :=
  (s, [.range (sumRange s.totals (E.today - 6) E.today)])

/-- `_handle_month`: `_sum_range(first-of-month, today)`. -/
def handleMonth (E : Ext) (s : Store) : Store × List Reply :=
  (s, [.range (sumRange s.totals E.monthStart E.today)])

/-- `_handle_lookup`: read-only hypothetical preview. -/
def handleLookup (E : Ext) (dt : Nat) (text : String) (s : Store) : Store × List Reply :=
  match E.nx text with
  | none => (s, [.info "lookup failed"])
  | some _ => (s, [.info "lookup", .range (sumRange s.totals dt dt)])

/-- `_meds_summary` / `_handle_meds*`: read-only aggregations. -/
def handleMedsSummary (s : Store) : Store × List Reply :=
  (s, [.info "meds summary"])

/-! ## Migraine / med / fast command handlers -/

/-- The category/when/note token split in `_handle_migraine start`. -/
def parseMigStart (parts : List String) : String × List String × List String :=
  match (parts.drop 1).findIdx? (fun t => MIG_CATS.contains (pyLower t)) with
  | some i =>
    let cat := (((parts.drop 1).get? i).map pyLower).getD "non-aura"
    (cat, (parts.drop 1).take i, (parts.drop 1).drop (i + 1))
  | none => ("non-aura", if parts.length > 1 then parts.drop 1 else [], [])

/-- `_handle_migraine`. An uncaught duplicate-key exception aborts the
invocation before any further write or reply (modelled by returning the
untouched store with no reply). -/
def handleMigraine (E : Ext) (args : String) (simulate : Bool) (s : Store) :
    Store × List Reply :=
  match pySplit (pyStrip args) with
  | [] => (s, [.info "migraine usage"])
  | sub :: restParts =>
    if pyLower sub = "start" then
      let parsed := parseMigStart (sub :: restParts)
      let whenMs := E.parseWhen parsed.2.1
      let note := pyJoin " " parsed.2.2
      if simulate || DRY_RUN then (s, [.test "migraine start"])
      else
        match startMigraine E.dayOf whenMs parsed.1 note s with
        | .ok r => r
        | .error _ => (s, [])
    else if pyLower sub = "end" then
      let whenMs := E.parseWhen restParts
      let note := pyJoin " "
        (restParts.filter (fun t => ¬ (t = "now" ∨ t = "today" ∨ t = "yesterday")))
      if simulate || DRY_RUN then (s, [.test "migraine end"])
      else endMigraine whenMs note s
    else (s, [.info "migraine usage"])

/-- The when/text token split at the top of `_handle_med` (the trailing
am/pm/yesterday/today case is concrete; the clock-time regex `elif` is the
`medTimeExtract` oracle). -/
def splitMedWhen (medTimeExtract : String → Option (List String × List String))
    (tokens : List String) (args : String) : List String × List String :=
  match tokens.getLast? with
  | none => ([], tokens)
  | some last =>
    if ["am", "pm", "yesterday", "today"].contains (pyLower last) then
      let n := if tokens.length ≥ 2 then 2 else 1
      (tokens.drop (tokens.length - n), tokens.take (tokens.length - n))
    else
      match medTimeExtract args with
      | some r => r
      | none => ([], tokens)

/-- `_handle_med`. -/
def handleMed (E : Ext) (args : String) (simulate : Bool) (s : Store) :
    Store × List Reply :=
  let tokens := pySplit (pyStrip args)
  let split := splitMedWhen E.medTimeExtract tokens args
  let whenMs := E.parseWhen split.1
  let textAfter := pyStrip (pyJoin " " split.2)
  if textAfter = "" then (s, [.info "med usage"])
  else if simulate || DRY_RUN then (s, [.test "med"])
  else
    let r := logMed E whenMs textAfter s
    (r.1, [.med r.2])

/-- `_get_fast_goal_hours` (default 16). -/
def getFastGoalHours (s : Store) : Int := s.fastGoal.getD 16

/-- `_fast_status`: read-only. -/
def fastStatus (s : Store) : Store × List Reply :=
  match openFast s with
  | some _ => (s, [.info "fast status (open)"])
  | none => (s, [.info "fast status"])

/-- `_handle_fast`. -/
def handleFast (E : Ext) (args : String) (simulate : Bool) (s : Store) :
    Store × List Reply :=
  match pySplit (pyStrip args) with
  | [] => (s, [.info "fast usage"])
  | sub :: rest =>
    let subL := pyLower sub
    if subL = "goal" then
      match rest with
      | [] => (s, [.info "fast goal usage"])
      | h :: _ =>
        -- `re.match(r"^\d{1,2}$", parts[1])`
        if 1 ≤ h.length ∧ h.length ≤ 2 ∧ h.data.all Char.isDigit then
          let hrs : Int := (((pyToNat? h).getD 0) : Nat)
          if simulate || DRY_RUN then (s, [.test "fast goal"])
          else ({ s with fastGoal := some hrs }, [.info "fast goal set"])
        else (s, [.info "fast goal usage"])
    else if subL = "status" then fastStatus s
    else if subL = "start" ∨ subL = "end" then
      let whenMs := E.parseWhen rest
      if simulate || DRY_RUN then (s, [.test "fast start-end"])
      else if subL = "start" then
        match startFast E.nowMs E.dayOf whenMs s with
        | .ok r => r
        | .error _ => (s, [])
      else endFast E.nowMs E.dayOf whenMs s
    else (s, [.info "fast usage"])

/-! ## Facts command handlers (meal_enricher side) -/

/-- `_fact_get_config` with the read-time defaults applied. -/
def factGetConfig (s : Store) : FactsCfg :=
  s.factsCfg.getD ⟨false, FACTS_DEFAULT_HOUR, "", none⟩

/-- `_normalize_hour`: `int()` failure falls back to the default; the result is
clamped into `[0, 23]`. -/
def normalizeHour (raw : String) : Nat :=
  match pyToInt? raw with
  | none => FACTS_DEFAULT_HOUR
  | some h => (max 0 (min 23 h)).toNat

/-- `_handle_facts`. -/
def handleFacts (sender args : String) (simulate : Bool) (s : Store) :
    Store × List Reply :=
  match pySplit (pyStrip args) with
  | [] => (s, [.info "facts usage"])
  | sub :: rest =>
    let subL := pyLower sub
    let cfg := factGetConfig s
    if subL = "status" then (s, [.info "facts status"])
    else if subL = "on" then
      let hour := match rest with
        | h :: _ => normalizeHour h
        | [] => cfg.dailyHour
      if simulate || DRY_RUN then (s, [.test "facts on"])
      else
        let cfg' := { cfg with dailyEnabled := true, dailyHour := hour, toNumber := sender }
        ({ s with factsCfg := some cfg' }, [.info "facts enabled"])
    else if subL = "off" then
      if simulate || DRY_RUN then (s, [.test "facts off"])
      else ({ s with factsCfg := some { cfg with dailyEnabled := false } },
            [.info "facts disabled"])
    else if subL = "hour" ∧ rest ≠ [] then
      let hour := normalizeHour (rest.headD "")
      if simulate || DRY_RUN then (s, [.test "facts hour"])
      else ({ s with factsCfg := some { cfg with dailyHour := hour } }, [.info "facts hour"])
    else if (subL = "number" ∨ subL = "to") ∧ rest ≠ [] then
      let target := pyStrip (pyJoin " " rest)
      if simulate || DRY_RUN then (s, [.test "facts number"])
      else ({ s with factsCfg := some { cfg with toNumber := target } },
            [.info "facts number"])
    else (s, [.info "facts usage"])

/-- `_handle_fact`: read-only (picks a random fact, sends it or a preview). -/
def handleFact (E : Ext) (args : String) (simulate : Bool) (s : Store) :
    Store × List Reply :=
  match E.pickFact s.facts with
  | none => (s, [.info "no facts available"])
  | some _ => if simulate || DRY_RUN then (s, [.test "fact"]) else (s, [.info "fact"])

/-! ## Command Router (`lambda_handler`, one SNS record) -/

/-- The ordered dispatch chain of `lambda_handler` (the part after the
simulate-marker strip). -/
def routeCommand (E : Ext) (simulate : Bool) (rawText sender mealPk : String)
    (tsMs : Nat) (s : Store) : Store × List Reply :=
  if pyLower rawText = "/help" ∨ pyLower rawText = "help" then (s, [.info "help"])
  else if pyStartsWith (pyLower rawText) "/summary" then handleSummary (E.dayOf tsMs) s
  else if pyStartsWith (pyLower rawText) "/barcode" then
    handleBarcode E (afterFirstSpace rawText) s
  else if pyStartsWith (pyLower rawText) "/food" then
    handleFood E.nowMs (afterFirstSpace rawText) s
  else if pyLower rawText = "/week" then handleWeek E s
  else if pyLower rawText = "/month" then handleMonth E s
  else if pyStartsWith (pyLower rawText) "/lookup:" ∨ pyStartsWith (pyLower rawText) "/lookup " then
    if pyStrip (if pyContains rawText ':' then afterFirstColon rawText
                else afterFirstSpace rawText) ≠ "" then
      handleLookup E (E.dayOf tsMs)
        (pyStrip (if pyContains rawText ':' then afterFirstColon rawText
                  else afterFirstSpace rawText)) s
    else (s, [.info "lookup usage"])
  else if pyLower rawText = "/undo" then handleUndo E.nowMs (E.dayOf tsMs) simulate s
  else if pyLower rawText = "/reset today" then
    handleResetToday E.nowMs (E.dayOf tsMs) simulate s
  else if pyLower rawText = "/meds" then handleMedsSummary s
  else if pyLower rawText = "/meds today" then handleMedsSummary s
  else if pyLower rawText = "/meds month" then handleMedsSummary s
  else if pyStartsWith (pyLower rawText) "/migraine" then
    handleMigraine E (afterFirstSpace rawText) simulate s
  else if pyStartsWith (pyLower rawText) "/med" then
    handleMed E (afterFirstSpace rawText) simulate s
  else if pyStartsWith (pyLower rawText) "/facts" then
    handleFacts sender (afterFirstSpace rawText) simulate s
  else if pyStartsWith (pyLower rawText) "/fact" then
    handleFact E (if pyContains rawText ':' then pyStrip (afterFirstColon rawText)
                  else pyStrip (afterFirstSpace rawText)) simulate s
  else if pyStartsWith (pyLower rawText) "/fast" then
    handleFast E (afterFirstSpace rawText) simulate s
  else if pyStartsWith (pyLower rawText) "meal:" ∨ pyStartsWith (pyLower rawText) "meal " then
    if pyStrip (if pyContains rawText ':' then afterFirstColon rawText
                else afterFirstSpace rawText) ≠ "" then
      handleMeal E sender (E.dayOf tsMs) tsMs mealPk
        (pyStrip (if pyContains rawText ':' then afterFirstColon rawText
                  else afterFirstSpace rawText)) simulate s
    else (s, [.info "meal hint"])
  else (s, [.info "unrecognized"])

/-- `lambda_handler`, one SNS record: strip the `/test ` simulate marker, then
dispatch. -/
def processMessage (E : Ext) (rawText₀ sender mealPk : String) (tsMs : Nat) (s : Store) :
    Store × List Reply :=
  let rawTextT := pyStrip rawText₀
  let simulate := pyStartsWith (pyLower rawTextT) "/test "
  let rawText := if simulate then pyStrip (pyDrop 6 rawTextT) else rawTextT
  routeCommand E simulate rawText sender mealPk tsMs s

/-! ## Episode-call sequences (for the episode invariant)

`runEpOp` is one tracker invocation on the migraine table; a raised
duplicate-key exception aborts the invocation with the store untouched. -/

inductive EpOp
  | start (whenMs : Nat) (cat note : String)
  | stop (whenMs : Nat) (note : String)
deriving Repr, DecidableEq

def runEpOp (dayOf : Nat → Nat) (s : Store) : EpOp → Store
  | .start w c n =>
    match startMigraine dayOf w c n s with
    | .ok r => r.1
    | .error _ => s
  | .stop w n => (endMigraine w n s).1

def runEpOps (dayOf : Nat → Nat) (s : Store) : List EpOp → Store
  | [] => s
  | op :: rest => runEpOps dayOf (runEpOp dayOf s op) rest

/-- Number of `is_open` migraine rows. -/
def openCount (s : Store) : Nat := (s.migs.filter (fun e => e.isOpen)).length

/-- A call sequence is guarded when every `start` is issued while no episode is
open, or is a re-delivery of an already-stored episode key. -/
def guardedOps (dayOf : Nat → Nat) (s : Store) : List EpOp → Bool
  | [] => true
  | .start w c n :: rest =>
    ((openCount s == 0) || migKeyExists s w)
      && guardedOps dayOf (runEpOp dayOf s (.start w c n)) rest
  | .stop w n :: rest => guardedOps dayOf (runEpOp dayOf s (.stop w n)) rest

/-! ## Fast-call sequences (same invariant, fasting table)

`runFastOp` is one fasting-tracker invocation; as for migraines, a raised
duplicate-key exception aborts the invocation with the store untouched. -/

inductive FastOp
  | start (whenMs : Nat)
  | stop (whenMs : Nat)
deriving Repr, DecidableEq

def runFastOp (nowMs : Nat) (dayOf : Nat → Nat) (s : Store) : FastOp → Store
  | .start w =>
    match startFast nowMs dayOf w s with
    | .ok r => r.1
    | .error _ => s
  | .stop w => (endFast nowMs dayOf w s).1

def runFastOps (nowMs : Nat) (dayOf : Nat → Nat) (s : Store) : List FastOp → Store
  | [] => s
  | op :: rest => runFastOps nowMs dayOf (runFastOp nowMs dayOf s op) rest

/-- Number of `is_open` fasting rows. -/
def openFastCount (s : Store) : Nat := (s.fasts.filter (fun e => e.isOpen)).length

/-- Guarded fasting call sequences: every `start` is issued while no fast is
open, or re-delivers an already-stored fast key. -/
def guardedFastOps (nowMs : Nat) (dayOf : Nat → Nat) (s : Store) : List FastOp → Bool
  | [] => true
  | .start w :: rest =>
    ((openFastCount s == 0) || fastKeyExists s w)
      && guardedFastOps nowMs dayOf (runFastOp nowMs dayOf s (.start w)) rest
  | .stop w :: rest => guardedFastOps nowMs dayOf (runFastOp nowMs dayOf s (.stop w)) rest

/-! ## Facts Scheduler (`facts_sender.py`) -/

namespace FactsSender

/-- The outcome of `_hourly_tick`. -/
inductive TickResult
  /-- `{"skipped": True, "reason": "disabled or no to_number"}` -/
  | skippedDisabled
  /-- `{"skipped": True, "reason": "already sent today"}` -/
  | skippedAlreadySent
  /-- `{"skipped": True, "reason": "hour … != …"}` -/
  | skippedWrongHour (nowHour cfgHour : Nat)
  /-- `{"skipped": True, "reason": "no facts available"}` -/
  | skippedNoFacts
  /-- `{"sent": True, …}` -/
  | sent
deriving Repr, DecidableEq

/-- `_hourly_tick`. `fact?` is the oracle outcome of `_pick_random_fact`;
`today` is the EST calendar day of the tick. -/
def hourlyTick (today nowHour : Nat) (fact? : Option String) (cfg : FactsCfg) :
    TickResult × FactsCfg :=
  if cfg.dailyEnabled = false ∨ cfg.toNumber = "" then (.skippedDisabled, cfg)
  else if cfg.lastSentDt = some today then (.skippedAlreadySent, cfg)
  else if nowHour ≠ cfg.dailyHour then (.skippedWrongHour nowHour cfg.dailyHour, cfg)
  else
    match fact? with
    | none => (.skippedNoFacts, cfg)
    | some _ => (.sent, { cfg with lastSentDt := some today })

/-- The inputs of one scheduled tick (hour of the wall clock, fact oracle). -/
structure TickInput where
  nowHour : Nat
  fact? : Option String
deriving Repr, DecidableEq

/-- Run the ticks of one day in order; returns the final config and the number of
facts actually sent. -/
def runTicks (today : Nat) (cfg : FactsCfg) : List TickInput → FactsCfg × Nat
  | [] => (cfg, 0)
  | t :: rest =>
    let r := hourlyTick today t.nowHour t.fact? cfg
    let rec' := runTicks today r.2 rest
    (rec'.1, (if r.1 = .sent then 1 else 0) + rec'.2)

end FactsSender

/-- Oracle bundle for the C1 evaluation: no override candidates, Nutritionix
resolves every text to 350 kcal / 30 P / 10 C / 15 F. -/
def extC1 : Ext :=
  { trivExt with dayOf := fun _ => 20, nx := fun _ => some ⟨350, 30, 10, 15⟩ }

/-- Oracle bundle for the medication evaluations: real day arithmetic
(`ms / 86400000`), every text classified as a triptan. -/
def extMedEval : Ext :=
  { trivExt with
    dayOf := fun ms => ms / 86400000
    classifyMed := fun _ => ("triptan", "sumatriptan")
    doseOf := fun _ => "50mg"
    monthStart := 100
    today := 106 }

/-- Seven triptan doses already stored this month (days 100 … 106). -/
def c2Store : Store :=
  { emptyStore with meds :=
      (List.range 7).map (fun i =>
        { user := "me", dt := 100 + i, tsMs := (100 + i) * 86400000
          text := "sumatriptan 50mg", category := "triptan"
          matchedName := "sumatriptan", dose := "50mg" }) }

/-- Oracle bundle for the C6 evaluation (no monthly count in range). -/
def extC6 : Ext :=
  { trivExt with
    dayOf := fun ms => ms / 86400000
    classifyMed := fun _ => ("triptan", "sumatriptan")
    doseOf := fun _ => "100mg" }

/-- A store already holding migraine and fast episodes with derived key 100. -/
def c5DupStore : Store :=
  { emptyStore with
    migs := [⟨"me", 100, 1, 100, 0, "non-aura", "", true, []⟩]
    fasts := [⟨"me", 100, 1, 100, 0, true⟩] }

/-! ## Helper lemmas -/

theorem asDecimal_nonneg (n : Option Int) : 0 ≤ asDecimal n := by
  cases n with
  | none => simp [asDecimal]
  | some d =>
    simp only [asDecimal]
    split <;> omega

/-! ## Claims -/

/-- C10: every macro delta `_update_totals` applies to Daily Totals goes
through `_as_decimal`, which sends `None`/malformed input to 0 and clamps
negatives to 0 (`max · 0`); hence a meal-log update never decreases any macro
field of the Daily Totals row. Only `_decrement_totals` (the undo path) uses
the separate signed conversion `_as_decimal_signed`, and it subtracts the
macros exactly. -/
theorem c10_meal_deltas_clamped_nonneg :
    (∀ z : Int, asDecimal (some z) = max z 0)
  ∧ asDecimal none = 0
  ∧ (∀ (nowMs : Nat) (ts : TotalsStore) (dt : Nat) (d : Macros),
      (getTotalsForDay ts dt).calories ≤ ((updateTotals nowMs ts dt d).2).calories
      ∧ (getTotalsForDay ts dt).protein ≤ ((updateTotals nowMs ts dt d).2).protein
      ∧ (getTotalsForDay ts dt).carbs ≤ ((updateTotals nowMs ts dt d).2).carbs
      ∧ (getTotalsForDay ts dt).fat ≤ ((updateTotals nowMs ts dt d).2).fat)
  ∧ (∀ (nowMs : Nat) (ts : TotalsStore) (dt : Nat) (d : Macros),
      ((decrementTotals nowMs ts dt d).2).calories
          = (getTotalsForDay ts dt).calories - d.calories
      ∧ ((decrementTotals nowMs ts dt d).2).protein
          = (getTotalsForDay ts dt).protein - d.protein
      ∧ ((decrementTotals nowMs ts dt d).2).carbs
          = (getTotalsForDay ts dt).carbs - d.carbs
      ∧ ((decrementTotals nowMs ts dt d).2).fat
          = (getTotalsForDay ts dt).fat - d.fat) := by
  refine ⟨fun z => ?_, rfl, fun nowMs ts dt d => ?_, fun nowMs ts dt d => ?_⟩
  · simp only [asDecimal]
    split <;> omega
  · exact ⟨le_add_of_nonneg_right (asDecimal_nonneg _),
      le_add_of_nonneg_right (asDecimal_nonneg _),
      le_add_of_nonneg_right (asDecimal_nonneg _),
      le_add_of_nonneg_right (asDecimal_nonneg _)⟩
  · refine ⟨?_, ?_, ?_, ?_⟩ <;> rfl

/-- C1 (code bug, evaluated at the failing input): delivering the identical
meal message (same user, day, text, timestamp) twice leaves exactly one Meal
Record and one enriched event — the conditional insert is skipped the second
time — but `_handle_meal` applies the macro deltas to Daily Totals
unconditionally, so after the second invocation the totals hold *two*
applications of the macros (700 kcal) instead of one (350 kcal). -/
theorem c1_replay_double_counts_totals :
    (handleMeal extC1 "snd" 20 5000 "me" "chicken salad" false emptyStore).1.meals.length = 1
  ∧ (getTotalsForDay
      (handleMeal extC1 "snd" 20 5000 "me" "chicken salad" false emptyStore).1.totals
      20).calories = 350
  ∧ (handleMeal extC1 "snd" 20 5000 "me" "chicken salad" false
      (handleMeal extC1 "snd" 20 5000 "me" "chicken salad" false
        emptyStore).1).1.meals.length = 1
  ∧ (handleMeal extC1 "snd" 20 5000 "me" "chicken salad" false
      (handleMeal extC1 "snd" 20 5000 "me" "chicken salad" false
        emptyStore).1).1.events.length = 1
  ∧ (getTotalsForDay
      (handleMeal extC1 "snd" 20 5000 "me" "chicken salad" false
        (handleMeal extC1 "snd" 20 5000 "me" "chicken salad" false
          emptyStore).1).1.totals 20).calories = 700 := by decide

/-- C2 (code bug, evaluated at the failing input): with `TRIPTAN_LIMIT_DPM = 8`
and seven prior doses, logging the 8th triptan dose of the month — so the
month-to-date count *including* the just-logged dose equals exactly the
ceiling 8 — already emits the over-limit warning `9/8`, because `_log_med`
writes the dose row before counting and then adds one more on top of the
count that already includes it. -/
theorem c2_over_limit_warning_at_ceiling :
    countMedDosesThisMonth 100 106 "triptan"
        (logMed extMedEval (106 * 86400000 + 3600000) "sumatriptan 50mg" c2Store).1 = 8
  ∧ MedWarning.overLimit 9 8
      ∈ (logMed extMedEval (106 * 86400000 + 3600000) "sumatriptan 50mg" c2Store).2.warnings
      := by decide

/-- C6 (code bug, evaluated at the failing input): logging a *first* triptan
dose into an empty dose history already emits the 24h contraindication
warning — the scan runs after the dose row is written, finds the just-logged
dose itself at time difference 0, and warns although no *other* triptan/DHE
dose exists within 24 hours. -/
theorem c6_first_triptan_dose_warns_against_itself :
    (logMed extC6 9000000000 "sumatriptan 100mg" emptyStore).1.meds.length = 1
  ∧ MedWarning.triptanInteraction
      ∈ (logMed extC6 9000000000 "sumatriptan 100mg" emptyStore).2.warnings := by decide

/-- C3 (counterexample): two `start` calls with distinct timestamps — the
second issued while the first episode is still open — leave *two* episode
records with `is_open = true` in the store, falsifying the invariant as
claimed. -/
theorem c3_counterexample_two_open_episodes :
    openCount (runEpOps (fun _ => 1) emptyStore
      [.start 100 "non-aura" "", .start 200 "non-aura" ""]) = 2 := by decide

/-- C5 (counterexample): re-delivering `start` with the identical derived
episode key makes the conditional put raise
`ConditionalCheckFailedException`, which `_start_migraine` does not catch —
the invocation does *not* complete normally. -/
theorem c5_counterexample_duplicate_start_raises :
    startMigraine (fun _ => 1) 100 "non-aura" ""
      (runEpOps (fun _ => 1) emptyStore [.start 100 "non-aura" ""]) = .error () := rfl

/-- C9 (counterexample): on a tick where the feature is disabled but the
last-sent day *is* today, the no-op reason is the disabled reason, not the
already-sent reason — the disabled/no-destination check runs first. -/
theorem c9_counterexample_disabled_reason_wins :
    (FactsSender.hourlyTick 100 9 (some "fact")
        ⟨false, 9, "whatsapp:+15551234567", some 100⟩).1
      = FactsSender.TickResult.skippedDisabled
  ∧ FactsSender.TickResult.skippedDisabled ≠ FactsSender.TickResult.skippedAlreadySent
      := by decide

/-- C4 (counterexample): a simulated food command, `/test /food set …`, still
writes the food-override table — `_handle_food` takes no simulate flag — so
the store is *not* left unchanged. -/
theorem c4_counterexample_simulated_food_set_writes :
    (processMessage trivExt "/test /food set tuna k=120 p=26 c=0 f=1" "snd" "me" 0
      emptyStore).1 ≠ emptyStore := by decide

/-- C7: when nutrition resolution fails for a meal text — no stored override
alias matches it and the Nutritionix call raises `NxError` (request error,
timeout, or zero matched foods) — `_handle_meal` writes nothing to any store
table and replies with the user-facing failure message. -/
theorem c7_resolution_failure_no_writes (E : Ext) (sender : String) (dt tsMs : Nat)
    (mealPk text : String) (simulate : Bool) (s : Store)
    (hov : matchOverrideInText E.overrideCandidates s text = none)
    (hnx : E.nx text = none) :
    handleMeal E sender dt tsMs mealPk text simulate s = (s, [.mealFail]) := by
  unfold handleMeal
  rw [hov, hnx]

/-- C7 witness: a concrete failed lookup at `"pizza"` over the empty store. -/
theorem c7_resolution_failure_witness :
    matchOverrideInText trivExt.overrideCandidates emptyStore "pizza" = none
  ∧ trivExt.nx "pizza" = none
  ∧ handleMeal trivExt "snd" 20 5000 "me" "pizza" false emptyStore
      = (emptyStore, [.mealFail]) :=
  ⟨rfl, rfl,
   c7_resolution_failure_no_writes trivExt "snd" 20 5000 "me" "pizza" false emptyStore rfl rfl⟩

/-- C5 (amended): when a record with the identical derived episode key already
exists, `Start` (migraine or fast) leaves the existing record unchanged and
creates no duplicate, but the invocation does not complete normally: the
conditional-write failure raises `ConditionalCheckFailedException`, which
escapes the handler uncaught (no reply is sent). -/
theorem c5_amended_duplicate_start_raises_without_writing
    (dayOf : Nat → Nat) (nowMs whenMs : Nat) (cat note : String) (s : Store)
    (hmig : migKeyExists s whenMs = true)
    (hfast : fastKeyExists s whenMs = true) :
    startMigraine dayOf whenMs cat note s = .error ()
  ∧ runEpOp dayOf s (.start whenMs cat note) = s
  ∧ startFast nowMs dayOf whenMs s = .error () := by
  refine ⟨?_, ?_, ?_⟩
  · unfold startMigraine
    rw [hmig]
    rfl
  · simp [runEpOp, startMigraine, hmig]
  · unfold startFast
    rw [hfast]
    rfl

/-- C5 witness: a concrete duplicate `start` on both trackers. -/
theorem c5_amended_witness :
    migKeyExists c5DupStore 100 = true
  ∧ fastKeyExists c5DupStore 100 = true
  ∧ startMigraine (fun _ => 1) 100 "aura" "note" c5DupStore = .error ()
  ∧ runEpOp (fun _ => 1) c5DupStore (.start 100 "aura" "note") = c5DupStore
  ∧ startFast 7 (fun _ => 1) 100 c5DupStore = .error () :=
  ⟨rfl, rfl,
   (c5_amended_duplicate_start_raises_without_writing (fun _ => 1) 7 100 "aura" "note"
      c5DupStore rfl rfl).1,
   (c5_amended_duplicate_start_raises_without_writing (fun _ => 1) 7 100 "aura" "note"
      c5DupStore rfl rfl).2.1,
   (c5_amended_duplicate_start_raises_without_writing (fun _ => 1) 7 100 "aura" "note"
      c5DupStore rfl rfl).2.2⟩

/-- Inserting into a key-descending list adds one filtered element when the
new element satisfies the predicate. -/
theorem filter_length_insertDescBy {α : Type} (key : α → Nat) (p : α → Bool) (a : α) :
    ∀ l : List α,
      ((insertDescBy key a l).filter p).length
        = (if p a then 1 else 0) + (l.filter p).length
  | [] => by by_cases h : p a <;> simp [insertDescBy, h]
  | e :: rest => by
    unfold insertDescBy
    by_cases hk : key e ≤ key a
    · rw [if_pos hk]
      by_cases ha : p a <;> by_cases he : p e <;>
        simp [List.filter_cons, ha, he] <;> omega
    · rw [if_neg hk]
      have ih := filter_length_insertDescBy key p a rest
      by_cases he : p e <;> simp [List.filter_cons, he, ih] <;> omega

/-- Mapping a function that can only turn the predicate off does not increase
the filtered length. -/
theorem filter_length_map_le {α : Type} (p : α → Bool) (f : α → α)
    (hf : ∀ x, p (f x) = true → p x = true) :
    ∀ l : List α, ((l.map f).filter p).length ≤ (l.filter p).length
  | [] => le_refl _
  | x :: rest => by
    have ih := filter_length_map_le p f hf rest
    by_cases hx : p (f x)
    · have hpx : p x = true := hf _ hx
      simp only [List.map_cons, List.filter_cons, hx, hpx, if_true]
      simpa using ih
    · by_cases hpx : p x <;>
        simp only [List.map_cons, List.filter_cons, hx, hpx, if_true, if_false,
          Bool.false_eq_true, List.length_cons] <;> omega

/-- Ending an episode never increases the number of open episodes. -/
theorem openCount_endMigraine_le (whenMs : Nat) (note : String) (s : Store) :
    openCount (endMigraine whenMs note s).1 ≤ openCount s := by
  unfold endMigraine
  cases h : openEpisode s with
  | none => exact le_refl _
  | some ep =>
    simp only [openCount]
    refine filter_length_map_le _ _ (fun x hx => ?_) s.migs
    by_cases hc : (x.user == ep.user && x.key == ep.key) = true
    · rw [if_pos hc] at hx
      simp at hx
    · rwa [if_neg hc] at hx

/-- A guarded `start` keeps at most one episode open. -/
theorem openCount_start_guarded (dayOf : Nat → Nat) (w : Nat) (c n : String) (s : Store)
    (hinv : openCount s ≤ 1)
    (hg : ((openCount s == 0) || migKeyExists s w) = true) :
    openCount (runEpOp dayOf s (.start w c n)) ≤ 1 := by
  by_cases hk : migKeyExists s w = true
  · simp only [runEpOp, startMigraine, hk, if_true]
    exact hinv
  · have h0 : openCount s = 0 := by
      rw [Bool.or_eq_true] at hg
      rcases hg with h | h
      · exact Nat.eq_of_beq_eq_true (by simpa using h)
      · exact absurd h hk
    simp only [runEpOp, startMigraine, hk, if_false, Bool.false_eq_true]
    show ((insertDescBy (fun e => e.key) _ s.migs).filter (fun e => e.isOpen)).length ≤ 1
    rw [filter_length_insertDescBy]
    have h0' : (s.migs.filter (fun e => e.isOpen)).length = 0 := h0
    simp [h0']

/-- The guarded migraine runs keep at most one episode open. -/
theorem guardedOps_keep_one_open (dayOf : Nat → Nat) (s : Store)
    (ops : List EpOp) (hinv : openCount s ≤ 1)
    (hg : guardedOps dayOf s ops = true) :
    openCount (runEpOps dayOf s ops) ≤ 1 := by
  induction ops generalizing s with
  | nil => exact hinv
  | cons op rest ih =>
    cases op with
    | start w c n =>
      rw [guardedOps, Bool.and_eq_true] at hg
      exact ih _ (openCount_start_guarded dayOf w c n s hinv hg.1) hg.2
    | stop w n =>
      rw [guardedOps] at hg
      exact ih _ (le_trans (openCount_endMigraine_le w n s) hinv) hg

/-- Ending a fast never increases the number of open fasting rows (the
`fast.end` event write touches only the events table). -/
theorem openFastCount_endFast_le (nowMs : Nat) (dayOf : Nat → Nat) (whenMs : Nat)
    (s : Store) :
    openFastCount (endFast nowMs dayOf whenMs s).1 ≤ openFastCount s := by
  unfold endFast
  cases h : openFast s with
  | none => exact le_refl _
  | some ep =>
    show ((s.fasts.map (fun e =>
        if e.user == ep.user && e.key == ep.key then
          { e with endMs := whenMs, isOpen := false }
        else e)).filter (fun e => e.isOpen)).length
      ≤ (s.fasts.filter (fun e => e.isOpen)).length
    refine filter_length_map_le _ _ (fun x hx => ?_) s.fasts
    by_cases hc : (x.user == ep.user && x.key == ep.key) = true
    · rw [if_pos hc] at hx
      simp at hx
    · rwa [if_neg hc] at hx

/-- A guarded fast `start` keeps at most one fast open (the `fast.start`
event write touches only the events table). -/
theorem openFastCount_start_guarded (nowMs : Nat) (dayOf : Nat → Nat) (w : Nat)
    (s : Store) (hinv : openFastCount s ≤ 1)
    (hg : ((openFastCount s == 0) || fastKeyExists s w) = true) :
    openFastCount (runFastOp nowMs dayOf s (.start w)) ≤ 1 := by
  by_cases hk : fastKeyExists s w = true
  · simp only [runFastOp, startFast, hk, if_true]
    exact hinv
  · have h0 : openFastCount s = 0 := by
      rw [Bool.or_eq_true] at hg
      rcases hg with h | h
      · exact Nat.eq_of_beq_eq_true (by simpa using h)
      · exact absurd h hk
    simp only [runFastOp, startFast, hk, if_false, Bool.false_eq_true]
    show ((insertDescBy (fun e => e.key) _ s.fasts).filter (fun e => e.isOpen)).length ≤ 1
    rw [filter_length_insertDescBy]
    have h0' : (s.fasts.filter (fun e => e.isOpen)).length = 0 := h0
    simp [h0']

/-- The guarded fasting runs keep at most one fast open. -/
theorem guardedFastOps_keep_one_open (nowMs : Nat) (dayOf : Nat → Nat) (s : Store)
    (fops : List FastOp) (hinv : openFastCount s ≤ 1)
    (hg : guardedFastOps nowMs dayOf s fops = true) :
    openFastCount (runFastOps nowMs dayOf s fops) ≤ 1 := by
  induction fops generalizing s with
  | nil => exact hinv
  | cons op rest ih =>
    cases op with
    | start w =>
      rw [guardedFastOps, Bool.and_eq_true] at hg
      exact ih _ (openFastCount_start_guarded nowMs dayOf w s hinv hg.1) hg.2
    | stop w =>
      rw [guardedFastOps] at hg
      exact ih _ (le_trans (openFastCount_endFast_le nowMs dayOf w s) hinv) hg

/-- C3 (amended): for both episode types, the at-most-one-open invariant holds
for every run of the tracker in which each `Start` is issued while no episode
of that type is open or is a re-delivery of an already-stored episode key; a
`Start` with a fresh derived key while an episode is open does create a
second open episode (see the counterexample). -/
theorem c3_amended_guarded_runs_keep_one_open (nowMs : Nat) (dayOf : Nat → Nat)
    (s : Store) (ops : List EpOp) (fops : List FastOp)
    (hinv : openCount s ≤ 1) (hg : guardedOps dayOf s ops = true)
    (hfinv : openFastCount s ≤ 1) (hfg : guardedFastOps nowMs dayOf s fops = true) :
    openCount (runEpOps dayOf s ops) ≤ 1
  ∧ openFastCount (runFastOps nowMs dayOf s fops) ≤ 1 :=
  ⟨guardedOps_keep_one_open dayOf s ops hinv hg,
   guardedFastOps_keep_one_open nowMs dayOf s fops hfinv hfg⟩

/-- C3 witness: concrete guarded runs (start, end, start again) on both the
migraine and the fasting tracker. -/
theorem c3_amended_witness :
    openCount emptyStore ≤ 1
  ∧ guardedOps (fun _ => 1) emptyStore
      [.start 100 "non-aura" "", .stop 200 "done", .start 300 "aura" ""] = true
  ∧ openFastCount emptyStore ≤ 1
  ∧ guardedFastOps 7 (fun _ => 1) emptyStore
      [.start 100, .stop 200, .start 300] = true
  ∧ (openCount (runEpOps (fun _ => 1) emptyStore
        [.start 100 "non-aura" "", .stop 200 "done", .start 300 "aura" ""]) ≤ 1
      ∧ openFastCount (runFastOps 7 (fun _ => 1) emptyStore
          [.start 100, .stop 200, .start 300]) ≤ 1) :=
  ⟨by decide, by decide, by decide, by decide,
   c3_amended_guarded_runs_keep_one_open 7 (fun _ => 1) emptyStore
     [.start 100 "non-aura" "", .stop 200 "done", .start 300 "aura" ""]
     [.start 100, .stop 200, .start 300]
     (by decide) (by decide) (by decide) (by decide)⟩

namespace FactsSender

/-- A tick whose last-sent day is already today never sends and leaves the
config unchanged. -/
theorem tick_already_sent_skips (today nowHour : Nat) (fact? : Option String)
    (cfg : FactsCfg) (h : cfg.lastSentDt = some today) :
    (hourlyTick today nowHour fact? cfg).2 = cfg
  ∧ (hourlyTick today nowHour fact? cfg).1 ≠ .sent := by
  by_cases hA : cfg.dailyEnabled = false ∨ cfg.toNumber = ""
  · constructor <;> simp [hourlyTick, hA]
  · constructor <;> simp [hourlyTick, hA, h]

/-- After an already-sent day, every further tick of that day no-ops. -/
theorem runTicks_already_sent (today : Nat) (cfg : FactsCfg)
    (h : cfg.lastSentDt = some today) :
    ∀ l : List TickInput, runTicks today cfg l = (cfg, 0)
  | [] => rfl
  | t :: rest => by
    have h1 := tick_already_sent_skips today t.nowHour t.fact? cfg h
    have h2 := runTicks_already_sent today cfg h rest
    simp [runTicks, h1.1, h1.2, h2]

/-- A tick that does not send leaves the config unchanged. -/
theorem tick_not_sent_cfg (today nowHour : Nat) (fact? : Option String)
    (cfg : FactsCfg) (h : (hourlyTick today nowHour fact? cfg).1 ≠ .sent) :
    (hourlyTick today nowHour fact? cfg).2 = cfg := by
  unfold hourlyTick at h ⊢
  by_cases hA : cfg.dailyEnabled = false ∨ cfg.toNumber = ""
  · simp [hA]
  · by_cases hB : cfg.lastSentDt = some today
    · simp [hA, hB]
    · by_cases hC : nowHour ≠ cfg.dailyHour
      · simp [hA, hB, hC]
      · cases hf : fact? with
        | none => simp [hA, hB, hC, hf]
        | some f => simp [hA, hB, hC, hf] at h

/-- Conditions forced by a successful send, and its config update. -/
theorem tick_sent_conditions (today nowHour : Nat) (fact? : Option String)
    (cfg : FactsCfg) (h : (hourlyTick today nowHour fact? cfg).1 = .sent) :
    cfg.dailyEnabled = true ∧ cfg.toNumber ≠ "" ∧ cfg.lastSentDt ≠ some today
  ∧ nowHour = cfg.dailyHour ∧ fact?.isSome = true
  ∧ (hourlyTick today nowHour fact? cfg).2.lastSentDt = some today := by
  by_cases hA : cfg.dailyEnabled = false ∨ cfg.toNumber = ""
  · simp [hourlyTick, hA] at h
  · by_cases hB : cfg.lastSentDt = some today
    · simp [hourlyTick, hA, hB] at h
    · by_cases hC : nowHour ≠ cfg.dailyHour
      · simp [hourlyTick, hA, hB, hC] at h
      · cases hf : fact? with
        | none => simp [hourlyTick, hA, hB, hC, hf] at h
        | some f =>
          push_neg at hA hC
          exact ⟨by simpa using hA.1, hA.2, hB, hC, by simp [hf],
            by simp [hourlyTick, hA, hB, hC, hf]⟩

/-- No day of ticks sends more than one fact. -/
theorem runTicks_sends_at_most_one (today : Nat) (cfg : FactsCfg) :
    ∀ l : List TickInput, (runTicks today cfg l).2 ≤ 1
  | [] => by simp [runTicks]
  | t :: rest => by
    by_cases hs : (hourlyTick today t.nowHour t.fact? cfg).1 = .sent
    · have hlast := (tick_sent_conditions today t.nowHour t.fact? cfg hs).2.2.2.2.2
      have h0 := runTicks_already_sent today _ hlast rest
      simp [runTicks, hs, h0]
    · have hcfg := tick_not_sent_cfg today t.nowHour t.fact? cfg hs
      have ih := runTicks_sends_at_most_one today cfg rest
      simp only [runTicks, hcfg]
      simpa [hs] using ih

end FactsSender

/-- C9 (amended): a tick sends a fact only when the feature is enabled, a
destination is set, the last-sent day is not today, the current hour equals
the configured hour and a fact is available; a successful send records today
as the last-sent day, so across any sequence of ticks of one day at most one
fact is sent. When the feature is enabled and a destination is set, a tick
whose last-sent day equals today no-ops with the already-sent reason (when
disabled or without a destination, such a tick still no-ops, but with the
disabled reason — see the counterexample). -/
theorem c9_amended_at_most_one_fact_per_day :
    (∀ (today nowHour : Nat) (fact? : Option String) (cfg : FactsCfg),
       cfg.dailyEnabled = true → cfg.toNumber ≠ "" → cfg.lastSentDt = some today →
         FactsSender.hourlyTick today nowHour fact? cfg
           = (.skippedAlreadySent, cfg))
  ∧ (∀ (today nowHour : Nat) (fact? : Option String) (cfg : FactsCfg),
       (FactsSender.hourlyTick today nowHour fact? cfg).1 = .sent →
         cfg.dailyEnabled = true ∧ cfg.toNumber ≠ "" ∧ cfg.lastSentDt ≠ some today
           ∧ nowHour = cfg.dailyHour ∧ fact?.isSome = true
           ∧ (FactsSender.hourlyTick today nowHour fact? cfg).2.lastSentDt = some today)
  ∧ (∀ (today : Nat) (cfg : FactsCfg) (l : List FactsSender.TickInput),
       (FactsSender.runTicks today cfg l).2 ≤ 1) := by
  refine ⟨fun today nowHour fact? cfg h1 h2 h3 => ?_,
    fun today nowHour fact? cfg h => FactsSender.tick_sent_conditions today nowHour fact? cfg h,
    fun today cfg l => FactsSender.runTicks_sends_at_most_one today cfg l⟩
  have hA : ¬ (cfg.dailyEnabled = false ∨ cfg.toNumber = "") := by
    simp [h1, h2]
  simp [FactsSender.hourlyTick, hA, h3]

/-- C9 witness: a day with a send at the configured hour followed by further
ticks; exactly the conditions of the theorem at concrete inputs. -/
theorem c9_amended_witness :
    FactsSender.hourlyTick 5 9 (some "f") ⟨true, 9, "whatsapp:+15551234567", some 5⟩
        = (.skippedAlreadySent, ⟨true, 9, "whatsapp:+15551234567", some 5⟩)
  ∧ ((FactsSender.hourlyTick 5 9 (some "f") ⟨true, 9, "whatsapp:+15551234567", some 4⟩).1
        = FactsSender.TickResult.sent →
      (⟨true, 9, "whatsapp:+15551234567", some 4⟩ : FactsCfg).dailyEnabled = true
      ∧ (⟨true, 9, "whatsapp:+15551234567", some 4⟩ : FactsCfg).toNumber ≠ ""
      ∧ (⟨true, 9, "whatsapp:+15551234567", some 4⟩ : FactsCfg).lastSentDt ≠ some 5
      ∧ 9 = (⟨true, 9, "whatsapp:+15551234567", some 4⟩ : FactsCfg).dailyHour
      ∧ (some "f").isSome = true
      ∧ (FactsSender.hourlyTick 5 9 (some "f")
          ⟨true, 9, "whatsapp:+15551234567", some 4⟩).2.lastSentDt = some 5)
  ∧ (FactsSender.runTicks 5 ⟨true, 9, "whatsapp:+15551234567", none⟩
      [⟨9, some "f"⟩, ⟨9, some "f"⟩, ⟨10, some "f"⟩]).2 ≤ 1 :=
  ⟨c9_amended_at_most_one_fact_per_day.1 5 9 (some "f")
      ⟨true, 9, "whatsapp:+15551234567", some 5⟩ rfl (by decide) rfl,
   c9_amended_at_most_one_fact_per_day.2.1 5 9 (some "f")
      ⟨true, 9, "whatsapp:+15551234567", some 4⟩,
   c9_amended_at_most_one_fact_per_day.2.2 5 ⟨true, 9, "whatsapp:+15551234567", none⟩
      [⟨9, some "f"⟩, ⟨9, some "f"⟩, ⟨10, some "f"⟩]⟩

/-- The one-day range predicate of `_sum_range` is key equality. -/
theorem decide_range_single (d x : Nat) :
    (decide (d ≤ x) && decide (x ≤ d)) = (x == d) := by
  by_cases h : x = d
  · subst h; simp
  · have hR : (x == d) = false := by simp [h]
    rw [hR]
    by_cases h1 : d ≤ x
    · have h2 : ¬ x ≤ d := fun hx => h (Nat.le_antisymm hx h1)
      simp [h1, h2]
    · simp [h1]

/-- Splitting the range filter sum into per-day key sums. -/
theorem sum_filter_range_decompose (g : Nat × TotalsRow → Int) (a b : Nat) :
    ∀ ts : TotalsStore,
      ((ts.filter (fun r => decide (a ≤ r.1) && decide (r.1 ≤ b))).map g).sum
        = ∑ x ∈ Finset.Icc a b, ((ts.filter (fun r => r.1 == x)).map g).sum
  | [] => by simp
  | r :: t => by
    have ih := sum_filter_range_decompose g a b t
    have congrStep : ∀ x : Nat,
        (((r :: t).filter (fun q => q.1 == x)).map g).sum
          = (if r.1 = x then g r else 0) + ((t.filter (fun q => q.1 == x)).map g).sum := by
      intro x
      by_cases hx : r.1 = x
      · rw [List.filter_cons, if_pos (by simp [hx]), List.map_cons, List.sum_cons, if_pos hx]
      · rw [List.filter_cons, if_neg (by simp [hx]), if_neg hx, zero_add]
    by_cases h : a ≤ r.1 ∧ r.1 ≤ b
    · have hpos : (decide (a ≤ r.1) && decide (r.1 ≤ b)) = true := by simp [h.1, h.2]
      rw [List.filter_cons, if_pos hpos, List.map_cons, List.sum_cons, ih,
        Finset.sum_congr rfl (fun x _ => congrStep x), Finset.sum_add_distrib,
        Finset.sum_ite_eq, if_pos (Finset.mem_Icc.mpr h)]
    · have hneg : (decide (a ≤ r.1) && decide (r.1 ≤ b)) = false := by
        by_cases h1 : a ≤ r.1
        · have h2 : ¬ r.1 ≤ b := fun hx => h ⟨h1, hx⟩
          simp [h1, h2]
        · simp [h1]
      rw [List.filter_cons, hneg, if_neg (by simp), ih,
        Finset.sum_congr rfl (fun x _ => congrStep x), Finset.sum_add_distrib]
      have hzero : (∑ x ∈ Finset.Icc a b, if r.1 = x then g r else 0) = 0 := by
        rw [Finset.sum_ite_eq, if_neg (fun hmem => h (Finset.mem_Icc.mp hmem))]
      rw [hzero, zero_add]

/-- With unique day keys, the one-day key sum is the stored row (zero when no
row exists). -/
theorem day_filter_sum_eq_get (g : TotalsRow → Int) (hg : g TotalsRow.zero = 0) (d : Nat) :
    ∀ ts : TotalsStore, (ts.map Prod.fst).Nodup →
      ((ts.filter (fun r => r.1 == d)).map (fun r => g r.2)).sum
        = g (getTotalsForDay ts d)
  | [], _ => by simp [getTotalsForDay, getTotalsRow?, hg]
  | r :: t, hnd => by
    have hnd' : (t.map Prod.fst).Nodup := (List.nodup_cons.mp hnd).2
    have hr : r.1 ∉ t.map Prod.fst := (List.nodup_cons.mp hnd).1
    by_cases hd : r.1 = d
    · have htail : t.filter (fun q => q.1 == d) = [] := by
        rw [List.filter_eq_nil]
        intro x hx
        have hxd : x.1 ≠ d := by
          intro he
          apply hr
          have hmem : x.1 ∈ t.map Prod.fst := List.mem_map_of_mem Prod.fst hx
          rwa [he, ← hd] at hmem
        simp [hxd]
      rw [List.filter_cons, if_pos (by simp [hd]), List.map_cons, List.sum_cons, htail]
      have hfind : (r :: t).find? (fun q => q.1 == d) = some r :=
        List.find?_cons_of_pos _ (by simp [hd])
      simp [getTotalsForDay, getTotalsRow?, hfind]
    · rw [List.filter_cons, if_neg (by simp [hd]),
        day_filter_sum_eq_get g hg d t hnd']
      have hfind : (r :: t).find? (fun q => q.1 == d) = t.find? (fun q => q.1 == d) :=
        List.find?_cons_of_neg _ (by simp [hd])
      simp [getTotalsForDay, getTotalsRow?, hfind]

/-- The four macro projections of `sumRange`, unfolded. -/
theorem sumRange_cal_def (ts : TotalsStore) (a b : Nat) :
    (sumRange ts a b).cal
      = ((ts.filter (fun r => decide (a ≤ r.1) && decide (r.1 ≤ b))).map
          (fun r => r.2.calories)).sum := rfl

theorem sumRange_pro_def (ts : TotalsStore) (a b : Nat) :
    (sumRange ts a b).pro
      = ((ts.filter (fun r => decide (a ≤ r.1) && decide (r.1 ≤ b))).map
          (fun r => r.2.protein)).sum := rfl

theorem sumRange_carb_def (ts : TotalsStore) (a b : Nat) :
    (sumRange ts a b).carb
      = ((ts.filter (fun r => decide (a ≤ r.1) && decide (r.1 ≤ b))).map
          (fun r => r.2.carbs)).sum := rfl

theorem sumRange_fat_def (ts : TotalsStore) (a b : Nat) :
    (sumRange ts a b).fat
      = ((ts.filter (fun r => decide (a ≤ r.1) && decide (r.1 ≤ b))).map
          (fun r => r.2.fat)).sum := rfl

/-- One macro field of `sumRange`, both halves of the aggregation law. -/
theorem sumRange_field_laws (g : TotalsRow → Int) (hg : g TotalsRow.zero = 0)
    (ts : TotalsStore) (a b d : Nat) (hnd : (ts.map Prod.fst).Nodup) :
    ((ts.filter (fun r => decide (d ≤ r.1) && decide (r.1 ≤ d))).map
        (fun r => g r.2)).sum = g (getTotalsForDay ts d)
  ∧ ((ts.filter (fun r => decide (a ≤ r.1) && decide (r.1 ≤ b))).map
        (fun r => g r.2)).sum
      = ∑ x ∈ Finset.Icc a b,
          ((ts.filter (fun r => decide (x ≤ r.1) && decide (r.1 ≤ x))).map
            (fun r => g r.2)).sum := by
  constructor
  · calc ((ts.filter (fun r => decide (d ≤ r.1) && decide (r.1 ≤ d))).map
        (fun r => g r.2)).sum
        = ((ts.filter (fun r => r.1 == d)).map (fun r => g r.2)).sum := by
          simp only [decide_range_single]
      _ = g (getTotalsForDay ts d) := day_filter_sum_eq_get g hg d ts hnd
  · calc ((ts.filter (fun r => decide (a ≤ r.1) && decide (r.1 ≤ b))).map
        (fun r => g r.2)).sum
        = ∑ x ∈ Finset.Icc a b, ((ts.filter (fun r => r.1 == x)).map
            (fun r => g r.2)).sum := sum_filter_range_decompose _ a b ts
      _ = ∑ x ∈ Finset.Icc a b,
            ((ts.filter (fun r => decide (x ≤ r.1) && decide (r.1 ≤ x))).map
              (fun r => g r.2)).sum := by
          refine Finset.sum_congr rfl (fun x _ => ?_)
          simp only [decide_range_single]

/-- C8: `SumRange(d, d)` equals the single day Daily Totals (zero when the day
has no row); the summed totals over `[a, b]` equal the sum of the single-day
results over every day of the range; the day count is the inclusive span
`b - a + 1` counting days with no record, and both reported means divide by
that inclusive count (`avg*X10` is the mean scaled by ten, see
`RangeSummary`). -/
theorem c8_sum_range_additive (ts : TotalsStore) (a b d : Nat)
    (hab : a ≤ b) (hnd : (ts.map Prod.fst).Nodup) :
    ((sumRange ts d d).cal = (getTotalsForDay ts d).calories
      ∧ (sumRange ts d d).pro = (getTotalsForDay ts d).protein
      ∧ (sumRange ts d d).carb = (getTotalsForDay ts d).carbs
      ∧ (sumRange ts d d).fat = (getTotalsForDay ts d).fat
      ∧ (sumRange ts d d).days = 1)
  ∧ ((sumRange ts a b).cal = ∑ x ∈ Finset.Icc a b, (sumRange ts x x).cal
      ∧ (sumRange ts a b).pro = ∑ x ∈ Finset.Icc a b, (sumRange ts x x).pro
      ∧ (sumRange ts a b).carb = ∑ x ∈ Finset.Icc a b, (sumRange ts x x).carb
      ∧ (sumRange ts a b).fat = ∑ x ∈ Finset.Icc a b, (sumRange ts x x).fat)
  ∧ (sumRange ts a b).days = b - a + 1
  ∧ (sumRange ts a b).avgCalX10
      = pyRoundFrac ((sumRange ts a b).cal * 10) ((b - a + 1 : Nat) : Int)
  ∧ (sumRange ts a b).avgProX10
      = pyRoundFrac ((sumRange ts a b).pro * 10) ((b - a + 1 : Nat) : Int) := by
  have hcal := sumRange_field_laws (fun t => t.calories) rfl ts a b d hnd
  have hpro := sumRange_field_laws (fun t => t.protein) rfl ts a b d hnd
  have hcarb := sumRange_field_laws (fun t => t.carbs) rfl ts a b d hnd
  have hfat := sumRange_field_laws (fun t => t.fat) rfl ts a b d hnd
  refine ⟨⟨?_, ?_, ?_, ?_, ?_⟩, ⟨?_, ?_, ?_, ?_⟩, rfl, rfl, rfl⟩
  · rw [sumRange_cal_def]; exact hcal.1
  · rw [sumRange_pro_def]; exact hpro.1
  · rw [sumRange_carb_def]; exact hcarb.1
  · rw [sumRange_fat_def]; exact hfat.1
  · simp [sumRange]
  · rw [sumRange_cal_def]
    simpa only [sumRange_cal_def] using hcal.2
  · rw [sumRange_pro_def]
    simpa only [sumRange_pro_def] using hpro.2
  · rw [sumRange_carb_def]
    simpa only [sumRange_carb_def] using hcarb.2
  · rw [sumRange_fat_def]
    simpa only [sumRange_fat_def] using hfat.2

/-- C8 witness: a concrete three-day range with rows on two of the days. -/
theorem c8_sum_range_witness :
    (3 : Nat) ≤ 5
  ∧ (([(3, ⟨100, 10, 5, 2, 0⟩), (5, ⟨200, 20, 7, 3, 0⟩)] : TotalsStore).map
      Prod.fst).Nodup
  ∧ ((sumRange [(3, ⟨100, 10, 5, 2, 0⟩), (5, ⟨200, 20, 7, 3, 0⟩)] 4 4).cal
      = (getTotalsForDay [(3, ⟨100, 10, 5, 2, 0⟩), (5, ⟨200, 20, 7, 3, 0⟩)] 4).calories)
  ∧ (sumRange [(3, ⟨100, 10, 5, 2, 0⟩), (5, ⟨200, 20, 7, 3, 0⟩)] 3 5).cal
      = ∑ x ∈ Finset.Icc 3 5,
          (sumRange [(3, ⟨100, 10, 5, 2, 0⟩), (5, ⟨200, 20, 7, 3, 0⟩)] x x).cal
  ∧ (sumRange [(3, ⟨100, 10, 5, 2, 0⟩), (5, ⟨200, 20, 7, 3, 0⟩)] 3 5).days = 3 :=
  ⟨by decide, by decide,
   ((c8_sum_range_additive [(3, ⟨100, 10, 5, 2, 0⟩), (5, ⟨200, 20, 7, 3, 0⟩)] 3 5 4
      (by decide) (by decide)).1).1,
   ((c8_sum_range_additive [(3, ⟨100, 10, 5, 2, 0⟩), (5, ⟨200, 20, 7, 3, 0⟩)] 3 5 4
      (by decide) (by decide)).2.1).1,
   (c8_sum_range_additive [(3, ⟨100, 10, 5, 2, 0⟩), (5, ⟨200, 20, 7, 3, 0⟩)] 3 5 4
      (by decide) (by decide)).2.2.1⟩

/-- Simulated meal logging reads but never writes. -/
theorem handleMeal_simulate_frame (E : Ext) (sender : String) (dt tsMs : Nat)
    (mealPk text : String) (s : Store) :
    (handleMeal E sender dt tsMs mealPk text true s).1 = s := by
  unfold handleMeal
  cases hov : matchOverrideInText E.overrideCandidates s text with
  | none => cases hnx : E.nx text <;> simp [hnx, DRY_RUN]
  | some p =>
    obtain ⟨a, q⟩ := p
    cases h : macrosFromOverride s a q with
    | some m => simp [h, DRY_RUN]
    | none => cases hnx : E.nx text <;> simp [h, hnx, DRY_RUN]

/-- `_handle_barcode` never writes. -/
theorem handleBarcode_frame (E : Ext) (args : String) (s : Store) :
    (handleBarcode E args s).1 = s := by
  simp only [handleBarcode]
  split
  · rfl
  · split <;> rfl

/-- `_handle_lookup` never writes. -/
theorem handleLookup_frame (E : Ext) (dt : Nat) (text : String) (s : Store) :
    (handleLookup E dt text s).1 = s := by
  unfold handleLookup
  cases E.nx text <;> rfl

/-- Simulated undo reads but never writes. -/
theorem handleUndo_simulate_frame (nowMs dt : Nat) (s : Store) :
    (handleUndo nowMs dt true s).1 = s := by
  unfold handleUndo
  cases s.meals.filter (fun r => r.user == USER_ID && r.dt == dt) <;> rfl

/-- Simulated migraine commands never write. -/
theorem handleMigraine_simulate_frame (E : Ext) (args : String) (s : Store) :
    (handleMigraine E args true s).1 = s := by
  simp only [handleMigraine]
  repeat' split
  all_goals first | rfl | simp_all [DRY_RUN]

/-- Simulated med commands never write. -/
theorem handleMed_simulate_frame (E : Ext) (args : String) (s : Store) :
    (handleMed E args true s).1 = s := by
  simp only [handleMed]
  repeat' split
  all_goals first | rfl | simp_all [DRY_RUN]

/-- Simulated facts commands never write. -/
theorem handleFacts_simulate_frame (sender args : String) (s : Store) :
    (handleFacts sender args true s).1 = s := by
  simp only [handleFacts]
  repeat' split
  all_goals first | rfl | simp_all [DRY_RUN]

/-- `_handle_fact` never writes. -/
theorem handleFact_frame (E : Ext) (args : String) (simulate : Bool) (s : Store) :
    (handleFact E args simulate s).1 = s := by
  simp only [handleFact]
  repeat' split
  all_goals rfl

/-- `_fast_status` never writes. -/
theorem fastStatus_frame (s : Store) : (fastStatus s).1 = s := by
  unfold fastStatus
  cases openFast s <;> rfl

/-- Simulated fast commands never write. -/
theorem handleFast_simulate_frame (E : Ext) (args : String) (s : Store) :
    (handleFast E args true s).1 = s := by
  simp only [handleFast]
  repeat' split
  all_goals first | rfl | exact fastStatus_frame s | simp_all [DRY_RUN]

set_option maxHeartbeats 2000000 in
/-- The dispatch chain with the simulate flag set leaves the store unchanged
for every command that is not routed to `_handle_food`. -/
theorem routeCommand_simulate_frame (E : Ext) (rawText sender mealPk : String)
    (tsMs : Nat) (s : Store)
    (hfood : pyStartsWith (pyLower rawText) "/food" = false) :
    (routeCommand E true rawText sender mealPk tsMs s).1 = s := by
  unfold routeCommand
  by_cases h1 : pyLower rawText = "/help" ∨ pyLower rawText = "help"
  · rw [if_pos h1]
  rw [if_neg h1]
  by_cases h2 : pyStartsWith (pyLower rawText) "/summary" = true
  · rw [if_pos h2]
    rfl
  rw [if_neg h2]
  by_cases h3 : pyStartsWith (pyLower rawText) "/barcode" = true
  · rw [if_pos h3]
    apply handleBarcode_frame
  rw [if_neg h3]
  by_cases h4 : pyStartsWith (pyLower rawText) "/food" = true
  · exact absurd h4 (by simp [hfood])
  rw [if_neg h4]
  by_cases h5 : pyLower rawText = "/week"
  · rw [if_pos h5]
    rfl
  rw [if_neg h5]
  by_cases h6 : pyLower rawText = "/month"
  · rw [if_pos h6]
    rfl
  rw [if_neg h6]
  by_cases h7 : pyStartsWith (pyLower rawText) "/lookup:" = true ∨ pyStartsWith (pyLower rawText) "/lookup " = true
  · rw [if_pos h7]
    repeat' split
    all_goals first | apply handleLookup_frame | rfl
  rw [if_neg h7]
  by_cases h8 : pyLower rawText = "/undo"
  · rw [if_pos h8]
    apply handleUndo_simulate_frame
  rw [if_neg h8]
  by_cases h9 : pyLower rawText = "/reset today"
  · rw [if_pos h9]
    rfl
  rw [if_neg h9]
  by_cases h10 : pyLower rawText = "/meds"
  · rw [if_pos h10]
    rfl
  rw [if_neg h10]
  by_cases h11 : pyLower rawText = "/meds today"
  · rw [if_pos h11]
    rfl
  rw [if_neg h11]
  by_cases h12 : pyLower rawText = "/meds month"
  · rw [if_pos h12]
    rfl
  rw [if_neg h12]
  by_cases h13 : pyStartsWith (pyLower rawText) "/migraine" = true
  · rw [if_pos h13]
    apply handleMigraine_simulate_frame
  rw [if_neg h13]
  by_cases h14 : pyStartsWith (pyLower rawText) "/med" = true
  · rw [if_pos h14]
    apply handleMed_simulate_frame
  rw [if_neg h14]
  by_cases h15 : pyStartsWith (pyLower rawText) "/facts" = true
  · rw [if_pos h15]
    apply handleFacts_simulate_frame
  rw [if_neg h15]
  by_cases h16 : pyStartsWith (pyLower rawText) "/fact" = true
  · rw [if_pos h16]
    apply handleFact_frame
  rw [if_neg h16]
  by_cases h17 : pyStartsWith (pyLower rawText) "/fast" = true
  · rw [if_pos h17]
    apply handleFast_simulate_frame
  rw [if_neg h17]
  by_cases h18 : pyStartsWith (pyLower rawText) "meal:" = true ∨ pyStartsWith (pyLower rawText) "meal " = true
  · rw [if_pos h18]
    repeat' split
    all_goals first | apply handleMeal_simulate_frame | rfl
  rw [if_neg h18]

/-- C4 (amended): an inbound text carrying the `/test` simulate marker leaves
the entire persistent store unchanged for every command except `/food` —
`_handle_food` ignores the simulate flag, so a simulated `/food set` or
`/food del` still writes the override table (see the counterexample); the
mutating handlers that do take the flag skip all writes and reply with a
`[TEST]` preview, while read-only commands reply without the marker. -/
theorem c4_amended_simulated_non_food_no_writes (E : Ext)
    (rawText₀ sender mealPk : String) (tsMs : Nat) (s : Store)
    (hsim : pyStartsWith (pyLower (pyStrip rawText₀)) "/test " = true)
    (hfood : pyStartsWith (pyLower (pyStrip (pyDrop 6 (pyStrip rawText₀)))) "/food"
      = false) :
    (processMessage E rawText₀ sender mealPk tsMs s).1 = s := by
  unfold processMessage
  simp only [hsim, if_true]
  exact routeCommand_simulate_frame E _ sender mealPk tsMs s hfood

/-- C4 witness: a concrete simulated non-food command. -/
theorem c4_amended_witness :
    pyStartsWith (pyLower (pyStrip "/test /reset today")) "/test " = true
  ∧ pyStartsWith (pyLower (pyStrip (pyDrop 6 (pyStrip "/test /reset today")))) "/food"
      = false
  ∧ (processMessage trivExt "/test /reset today" "snd" "me" 0 emptyStore).1
      = emptyStore :=
  ⟨rfl, rfl,
   c4_amended_simulated_non_food_no_writes trivExt "/test /reset today" "snd" "me" 0
     emptyStore rfl rfl⟩

end HealthBot
